import Mathlib

/-!
Verification development for the ai-webtester repository.

The two core source files are embedded shallowly:
* `Milestone4/agent/universal_parser.py` — the instruction compiler
  (`UniversalParser._parse_simple` and its helpers), modelled in the
  `WebTester` namespace below.  Python regular expressions are translated
  into hand-compiled backtracking matchers over `List Char` with the same
  leftmost-match, alternation-order and greedy/lazy semantics as `re.search`
  for the concrete patterns appearing in the source.
* `Milestone4/agent/universal_executor.py` — the execution engine
  (`UniversalExecutor.run` and the per-action handlers).  The live browser
  is abstracted as a `Page` record of selector-success predicates for the
  handler-level model, and as an outcome oracle for the step-loop model:
  the loop logic itself (status checks, soft-kind set, `execution_stopped`
  synthesis, exception recovery, final capture, data summary) is translated
  from the source.

The parser runs in regex mode (no API key: `use_ai` is false in
`UniversalParser._init_ai`), so `parse` goes through `_parse_simple`.
Python strings are modelled over their character lists; `str.lower` is
modelled on the ASCII range.
-/

namespace WebTester

/-! ## Python string primitives -/

/-- Python `\s` / `str.split()` whitespace, ASCII fragment. -/
def isSpaceCh (c : Char) : Bool :=
  c = ' ' || c = '\t' || c = '\n' || c = '\r' || c = '\x0b' || c = '\x0c'

/-- ASCII letter (the `[a-zA-Z]` character class). -/
def isAlphaCh (c : Char) : Bool :=
  ('a' ≤ c && c ≤ 'z') || ('A' ≤ c && c ≤ 'Z')

/-- ASCII digit (the `[0-9]` character class). -/
def isDigitCh (c : Char) : Bool := '0' ≤ c && c ≤ '9'

theorem lowerCh_valid (c : Char) (h : 'A' ≤ c ∧ c ≤ 'Z') :
    (c.val + 32).isValidChar := by
  have hz : c.val.toNat ≤ 90 := h.2
  have h32 : (c.val + 32).toNat = c.val.toNat + 32 := by
    rw [UInt32.toNat_add]
    have := UInt32.toNat_lt c.val
    simp [UInt32.size] at *
    omega
  rw [UInt32.isValidChar, h32]
  left
  omega

/-- Python `str.lower` on one character (ASCII range, as the source's
instructions are ASCII). -/
def lowerCh (c : Char) : Char :=
  if h : 'A' ≤ c ∧ c ≤ 'Z' then ⟨c.val + 32, lowerCh_valid c h⟩ else c

/-- Python `str.lower`. -/
def pyLower (l : List Char) : List Char := l.map lowerCh

/-- Make a `String` from its characters. -/
def mkStr (l : List Char) : String := ⟨l⟩

/-- Characters of a string. -/
def chars (s : String) : List Char := s.data

/-- Python `str.strip()` (no argument: strip whitespace at both ends). -/
def stripWs (l : List Char) : List Char :=
  ((l.dropWhile isSpaceCh).reverse.dropWhile isSpaceCh).reverse

/-- Python `str.strip(cs)`: strip any of the characters `cs` at both ends. -/
def stripEndsIn (cs : List Char) (l : List Char) : List Char :=
  ((l.dropWhile cs.contains).reverse.dropWhile cs.contains).reverse

/-- Python `str.rstrip(cs)`. -/
def rstripIn (cs : List Char) (l : List Char) : List Char :=
  (l.reverse.dropWhile cs.contains).reverse

/-- Python substring test `needle in haystack` (`List`-level). -/
def hasSub (nd : List Char) : List Char → Bool
  | [] => nd.isEmpty
  | c :: rest => nd.isPrefixOf (c :: rest) || hasSub nd rest

/-- Python substring test `needle in haystack` (`String`-level). -/
def strIn (nd hay : String) : Bool := hasSub nd.data hay.data

/-- Python `str.replace(pat, rep)`, fuelled so that the recursion is
structural (each step consumes at least one character, so `l.length` fuel
never runs out; `pat` is nonempty at every call site in the source). -/
def replaceAllGo (pat rep : List Char) : Nat → List Char → List Char
  | _, [] => []
  | 0, l => l
  | Nat.succ fuel, c :: rest =>
    if pat.isPrefixOf (c :: rest) && !pat.isEmpty then
      rep ++ replaceAllGo pat rep fuel (rest.drop (pat.length - 1))
    else
      c :: replaceAllGo pat rep fuel rest

/-- Python `str.replace(pat, rep)` (all occurrences, left to right). -/
def replaceAll (pat rep : List Char) (l : List Char) : List Char :=
  replaceAllGo pat rep l.length l

/-- Python `str.split(sep)` for a one-character separator (keeps empties). -/
def splitOnCh (sep : Char) : List Char → List (List Char)
  | [] => [[]]
  | c :: rest =>
    if c = sep then
      [] :: splitOnCh sep rest
    else
      match splitOnCh sep rest with
      | h :: t => (c :: h) :: t
      | [] => [[c]]

/-- Python `str.split()` (split on whitespace runs, no empties), fuelled
so that the recursion is structural (each step consumes at least one
character). -/
def pySplitWsGo : Nat → List Char → List (List Char)
  | _, [] => []
  | 0, _ => []
  | Nat.succ fuel, c :: rest =>
    if isSpaceCh c then
      pySplitWsGo fuel rest
    else
      let w := rest.takeWhile (fun d => !isSpaceCh d)
      (c :: w) :: pySplitWsGo fuel (rest.drop w.length)

/-- Python `str.split()` (no argument). -/
def pySplitWs (l : List Char) : List (List Char) :=
  pySplitWsGo l.length l

/-- Python `", ".join(xs)` and friends. -/
def joinSep (sep : String) (xs : List String) : String :=
  String.intercalate sep xs

/-! ## Hand-compiled matchers for the source's regular expressions

Each Python pattern used by `UniversalParser` is translated into a
backtracking matcher with `re.search` semantics: starting positions are
tried left to right (`scanFor`), alternatives in written order, `+` greedy
with give-back (`spacesPlus`), `+?` lazily (`lazyGroup`).  Matchers return
the pattern's capture group. -/

/-- Case-insensitive literal prefix test (`re.IGNORECASE`; the literal is
written in lowercase).  On an already lowercased subject this coincides
with the case-sensitive test the lowercase patterns perform. -/
def ciPrefixOf : List Char → List Char → Bool
  | [], _ => true
  | _ :: _, [] => false
  | k :: ks, c :: cs => k = lowerCh c && ciPrefixOf ks cs

/-- `re.search`: try the anchored matcher at each position, leftmost first
(including the empty suffix, as Python does). -/
def scanFor (att : List Char → Option (List Char)) : List Char → Option (List Char)
  | [] => att []
  | c :: rest => att (c :: rest) <|> scanFor att rest

/-- Greedy `\s+` followed by a continuation, trying the longest run of
whitespace first and giving characters back on failure. -/
def spacesPlus (cont : List Char → Option (List Char)) : List Char → Option (List Char)
  | [] => none
  | c :: rest =>
    if isSpaceCh c then spacesPlus cont rest <|> cont rest else none

/-- Greedy `(\S+)` at the end of a pattern: the maximal nonempty run of
non-whitespace characters. -/
def grabNonSpace : List Char → Option (List Char)
  | [] => none
  | c :: rest =>
    if isSpaceCh c then none
    else some (c :: rest.takeWhile (fun d => !isSpaceCh d))

/-- Greedy `([a-zA-Z]+)` at the end of a pattern. -/
def grabAlphaWord (l : List Char) : Option (List Char) :=
  let w := l.takeWhile isAlphaCh
  if w.isEmpty then none else some w

/-- Greedy `([a-zA-Z]+(?:\s+[a-zA-Z]+)?)` at the end of a pattern (the
"name" capture: one word, optionally whitespace and a second word, the
whitespace included in the group). -/
def grabNamePart (l : List Char) : Option (List Char) :=
  let w1 := l.takeWhile isAlphaCh
  if w1.isEmpty then none
  else
    let rest := l.drop w1.length
    let sp := rest.takeWhile isSpaceCh
    if sp.isEmpty then some w1
    else
      let w2 := (rest.drop sp.length).takeWhile isAlphaCh
      if w2.isEmpty then some w1 else some (w1 ++ sp ++ w2)

/-- The optional `(?:is\s+|as\s+)?` group followed by a value capture,
with the alternation tried in written order and the empty alternative
last. -/
def isasThen (grab : List Char → Option (List Char)) (l : List Char) :
    Option (List Char) :=
  (if ciPrefixOf ['i', 's'] l then spacesPlus grab (l.drop 2) else none)
  <|> (if ciPrefixOf ['a', 's'] l then spacesPlus grab (l.drop 2) else none)
  <|> grab l

/-- Anchored `kw\s+(?:is\s+|as\s+)?(\S+)` (the password/username pattern
shape). -/
def kwValueAt (kw : List Char) (l : List Char) : Option (List Char) :=
  if ciPrefixOf kw l then spacesPlus (isasThen grabNonSpace) (l.drop kw.length)
  else none

/-- Anchored `with\s+kw\s+(\S+)` (the `with password p` pattern shape). -/
def withKwValueAt (kw : List Char) (l : List Char) : Option (List Char) :=
  if ciPrefixOf "with".data l then
    spacesPlus
      (fun r =>
        if ciPrefixOf kw r then spacesPlus grabNonSpace (r.drop kw.length)
        else none)
      (l.drop 4)
  else none

/-- Characters Python's `rstrip('.,;:!?')` removes from extracted values. -/
def punctChars : List Char := ['.', ',', ';', ':', '!', '?']

/-- `_parse_simple`'s password extraction: the three patterns in source
order, first match wins, the captured value right-stripped of punctuation.
Runs on the lowercased instruction. -/
def extractPassword (il : List Char) : Option (List Char) :=
  (scanFor (kwValueAt "password".data) il
    <|> scanFor (kwValueAt "pass".data) il
    <|> scanFor (withKwValueAt "password".data) il).map (rstripIn punctChars)

/-- `_parse_simple`'s username extraction (patterns `username`, `user`,
`with username`). -/
def extractUsername (il : List Char) : Option (List Char) :=
  (scanFor (kwValueAt "username".data) il
    <|> scanFor (kwValueAt "user".data) il
    <|> scanFor (withKwValueAt "username".data) il).map (rstripIn punctChars)

/-- Anchored `name\s+(?:is\s+|as\s+)?([a-zA-Z]+(?:\s+[a-zA-Z]+)?)`. -/
def nameAt (l : List Char) : Option (List Char) :=
  if ciPrefixOf "name".data l then
    spacesPlus (isasThen grabNamePart) (l.drop 4)
  else none

/-- Anchored `with\s+name\s+([a-zA-Z]+(?:\s+[a-zA-Z]+)?)`. -/
def withNameAt (l : List Char) : Option (List Char) :=
  if ciPrefixOf "with".data l then
    spacesPlus
      (fun r =>
        if ciPrefixOf "name".data r then spacesPlus grabNamePart (r.drop 4)
        else none)
      (l.drop 4)
  else none

/-- `_parse_simple`'s name extraction. -/
def extractName (il : List Char) : Option (List Char) :=
  scanFor nameAt il <|> scanFor withNameAt il

/-- The `name\s+(?:is\s+|as\s+)?([a-zA-Z]+)` continuation of the first
first/last-name pattern. -/
def flNameCont (r2 : List Char) : Option (List Char) :=
  if ciPrefixOf "name".data r2 then
    spacesPlus (isasThen grabAlphaWord) (r2.drop 4)
  else none

/-- Anchored `kw[\s_-]?name\s+(?:is\s+|as\s+)?([a-zA-Z]+)` with `kw` one
of `first`/`last` (the optional separator class tried greedily). -/
def flNameP1At (kw : List Char) (l : List Char) : Option (List Char) :=
  if ciPrefixOf kw l then
    match l.drop kw.length with
    | [] => flNameCont []
    | c :: rest =>
      if isSpaceCh c || c = '_' || c = '-' then
        flNameCont rest <|> flNameCont (c :: rest)
      else flNameCont (c :: rest)
  else none

/-- Anchored `kw\s+name\s+([a-zA-Z]+)` (the second first/last-name
pattern). -/
def flNameP2At (kw : List Char) (l : List Char) : Option (List Char) :=
  if ciPrefixOf kw l then
    spacesPlus
      (fun r =>
        if ciPrefixOf "name".data r then spacesPlus grabAlphaWord (r.drop 4)
        else none)
      (l.drop kw.length)
  else none

/-- `_parse_simple`'s first-name extraction. -/
def extractFirstName (il : List Char) : Option (List Char) :=
  scanFor (flNameP1At "first".data) il <|> scanFor (flNameP2At "first".data) il

/-- `_parse_simple`'s last-name extraction. -/
def extractLastName (il : List Char) : Option (List Char) :=
  scanFor (flNameP1At "last".data) il <|> scanFor (flNameP2At "last".data) il

/-! ### The email pattern

`([a-zA-Z0-9._%+-]+@[a-zA-Z0-9.-]+\.[a-zA-Z]{2,})`, with the two prefixed
variants `email\s+(?:is\s+|as\s+)?(...)` and `with\s+email\s+(...)`, all
under `re.IGNORECASE` over the original (not lowercased) instruction. -/

/-- The `[a-zA-Z0-9._%+-]` class (email local part). -/
def isLocalCh (c : Char) : Bool :=
  isAlphaCh c || isDigitCh c || c = '.' || c = '_' || c = '%' || c = '+' || c = '-'

/-- The `[a-zA-Z0-9.-]` class (email domain part). -/
def isDomCh (c : Char) : Bool :=
  isAlphaCh c || isDigitCh c || c = '.' || c = '-'

/-- Backtracking split of the maximal domain-class run for
`[a-zA-Z0-9.-]+\.[a-zA-Z]{2,}`: the rightmost `.` followed by at least two
letters wins (Python's greedy `+` gives back one character at a time), the
result being the part before that dot and the maximal letter run after it. -/
def bestSplitAux : List Char → Option (List Char × List Char)
  | [] => none
  | c :: rest =>
    match bestSplitAux rest with
    | some (pre, al) => some (c :: pre, al)
    | none =>
      if c = '.' then
        let al := rest.takeWhile isAlphaCh
        if 2 ≤ al.length then some ([], al) else none
      else none

/-- Anchored email capture `[a-zA-Z0-9._%+-]+@[a-zA-Z0-9.-]+\.[a-zA-Z]{2,}`. -/
def emailAt (l : List Char) : Option (List Char) :=
  let loc := l.takeWhile isLocalCh
  if loc.isEmpty then none
  else
    match l.drop loc.length with
    | '@' :: rest =>
      let dom := rest.takeWhile isDomCh
      match bestSplitAux dom with
      | some (pre, al) =>
        if pre.isEmpty then none else some (loc ++ '@' :: (pre ++ '.' :: al))
      | none => none
    | _ => none

/-- Anchored `email\s+(?:is\s+|as\s+)?(EMAIL)`. -/
def emailP1At (l : List Char) : Option (List Char) :=
  if ciPrefixOf "email".data l then
    spacesPlus (isasThen emailAt) (l.drop 5)
  else none

/-- Anchored `with\s+email\s+(EMAIL)`. -/
def emailP2At (l : List Char) : Option (List Char) :=
  if ciPrefixOf "with".data l then
    spacesPlus
      (fun r =>
        if ciPrefixOf "email".data r then spacesPlus emailAt (r.drop 5)
        else none)
      (l.drop 4)
  else none

/-- The source's pattern loop for email: each pattern searched in order,
and a match only accepted (with `break`) when it contains `@`; otherwise
the next pattern is tried. -/
def emailAccept (r : Option (List Char)) (next : Unit → Option (List Char)) :
    Option (List Char) :=
  match r with
  | some v => if v.contains '@' then some v else next ()
  | none => next ()

/-- `_parse_simple`'s email extraction, over the original instruction. -/
def extractEmail (s : List Char) : Option (List Char) :=
  emailAccept (scanFor emailP1At s) fun _ =>
    emailAccept (scanFor emailP2At s) fun _ =>
      emailAccept (scanFor emailAt s) fun _ => none

/-! ### Extracted fields -/

/-- The `extracted_fields` dictionary built in `_parse_simple` STEP 1:
a key is present exactly when its pattern matched. -/
structure Fields where
  email : Option String := none
  password : Option String := none
  username : Option String := none
  name : Option String := none
  first_name : Option String := none
  last_name : Option String := none
deriving DecidableEq, Repr

/-- Dictionary lookup on the extracted fields (keys other than the six
below are never present). -/
def Fields.get (f : Fields) : String → Option String
  | "email" => f.email
  | "password" => f.password
  | "username" => f.username
  | "name" => f.name
  | "first_name" => f.first_name
  | "last_name" => f.last_name
  | _ => none

/-- STEP 1 of `_parse_simple`: run every field extractor.  Email runs on
the original instruction (`re.IGNORECASE`), the others on the lowercased
instruction. -/
def extractAll (s : String) : Fields :=
  let il := pyLower s.data
  { email := (extractEmail s.data).map mkStr
    password := (extractPassword il).map mkStr
    username := (extractUsername il).map mkStr
    name := (extractName il).map mkStr
    first_name := (extractFirstName il).map mkStr
    last_name := (extractLastName il).map mkStr }

/-! ## Site Profile Registry (`UniversalParser.site_configs`) -/

/-- One entry of `site_configs` (the keys the parser reads; `signup_flow`
and `required_for_signup` are set in the source but never read by
`_parse_simple`'s code paths). -/
structure SiteCfg where
  url : String
  login_url : Option String := none
  signup_url : Option String := none
  login_fields : List String := []
  signup_fields : Option (List String) := none
  search_selector : Option String := none
deriving DecidableEq, Repr

/-- The keys of `site_configs` in insertion order (Python dict order, used
by `_detect_site`'s loop and by `_extract_search_query`'s word removal). -/
def siteNames : List String :=
  ["facebook", "twitter", "x.com", "instagram", "linkedin", "amazon",
   "flipkart", "google", "youtube", "wikipedia", "wiki", "reddit", "github"]

/-- `site_configs` as a lookup. -/
def siteCfg : String → Option SiteCfg
  | "facebook" => some
    { url := "https://facebook.com", login_url := some "https://facebook.com",
      login_fields := ["email", "password"],
      signup_fields := some ["first_name", "last_name", "email", "password",
        "birth_day", "birth_month", "birth_year", "gender"] }
  | "twitter" => some
    { url := "https://twitter.com",
      login_url := some "https://twitter.com/i/flow/login",
      signup_url := some "https://twitter.com/i/flow/signup",
      login_fields := ["username", "password"],
      signup_fields := some ["name", "email", "password", "birth_month",
        "birth_day", "birth_year"] }
  | "x.com" => some
    { url := "https://x.com", login_url := some "https://x.com/i/flow/login",
      signup_url := some "https://x.com/i/flow/signup",
      login_fields := ["username", "password"],
      signup_fields := some ["name", "email", "password", "birth_month",
        "birth_day", "birth_year"] }
  | "instagram" => some
    { url := "https://instagram.com",
      login_url := some "https://instagram.com/accounts/login/",
      signup_fields := some ["email", "name", "username", "password"] }
  | "linkedin" => some
    { url := "https://linkedin.com",
      login_url := some "https://linkedin.com/login",
      signup_url := some "https://linkedin.com/signup",
      login_fields := ["email", "password"],
      signup_fields := some ["first_name", "last_name", "email", "password"] }
  | "amazon" => some
    { url := "https://amazon.com",
      login_url := some "https://amazon.com/ap/signin",
      search_selector := some "#twotabsearchtextbox, input[name='field-keywords']",
      signup_fields := some ["name", "email", "password"] }
  | "flipkart" => some
    { url := "https://flipkart.com",
      search_selector :=
        some "input[name='q'], input[title='Search for products, brands and more']",
      signup_fields := some ["email", "password"] }
  | "google" => some
    { url := "https://google.com",
      login_url := some "https://accounts.google.com",
      search_selector := some "textarea[name='q'], input[name='q']",
      signup_fields := some ["first_name", "last_name", "email", "password"] }
  | "youtube" => some
    { url := "https://youtube.com",
      search_selector := some "input[name='search_query'], input[id='search']" }
  | "wikipedia" => some
    { url := "https://wikipedia.org",
      search_selector := some "#searchInput, input[name='search']" }
  | "wiki" => some
    { url := "https://wikipedia.org",
      search_selector := some "#searchInput, input[name='search']" }
  | "reddit" => some
    { url := "https://reddit.com",
      signup_fields := some ["email", "username", "password"] }
  | "github" => some
    { url := "https://github.com",
      signup_fields := some ["email", "username", "password"] }
  | _ => none

/-! ## Detection (`_detect_site`, `_detect_action_type`) -/

/-- `_detect_site`: Wikipedia and LinkedIn aliases first, then the config
keys by substring in insertion order, then a domain-like token. -/
def detectSite (il : String) : String :=
  if strIn "wikipedia" il || strIn "wiki" il then "wikipedia"
  else if strIn "linkedin" il || strIn "linked in" il then "linkedin"
  else
    match siteNames.find? (fun s => strIn s il) with
    | some s => s
    | none =>
      match (pySplitWs il.data).findSome? (fun w =>
          let cw := stripEndsIn ".,;:!?()".data w
          if cw.contains '.' && !(cw.head? = some '.') then
            some (mkStr (((splitOnCh '.' (replaceAll "www.".data [] cw)).headD [])))
          else none) with
      | some d => d
      | none => "unknown"

/-- `_detect_action_type`: keyword-set membership, search before login
before signup before navigate. -/
def detectActionType (il : String) : String :=
  if ["search", "find", "look for"].any (fun k => strIn k il) then "search"
  else if ["login", "signin", "sign in", "log in"].any (fun k => strIn k il) then
    "login"
  else if ["signup", "register", "sign up", "join", "create account",
      "create"].any (fun k => strIn k il) then "signup"
  else if ["go to", "open", "visit", "navigate", "launch",
      "move to"].any (fun k => strIn k il) then "navigate"
  else "unknown"

/-- `_get_site_url`. -/
def getSiteUrl (site : String) : String :=
  match siteCfg site with
  | some c => c.url
  | none =>
    if strIn "." site then
      if "http".data.isPrefixOf site.data then site else "https://" ++ site
    else "https://" ++ site ++ ".com"

/-- `_get_search_selector`. -/
def getSearchSelector (site : String) : String :=
  match siteCfg site with
  | some c =>
    c.search_selector.getD
      "input[type='search'], input[name='search'], input[type='text'], textarea[name='q'], input[name='q']"
  | none =>
    "input[type='search'], input[name='search'], #search, .search-input, input[placeholder*='search' i], input[type='text']"

/-! ## Random data (`_get_field_value`)

`agent/random_data.py` is imported by the source but is not among the
repository files under `src/`; only its caller is.  `RandSource` models one
draw of the nondeterministic inputs (`time.time()`, `random.choices`,
`random.choice`); the e-mail/password/name/username formats below are the
inline generators of `_get_field_value` itself (they are in `src/`).
`RandSource.other` is modelled from the spec: the spec says missing signup
fields are synthesized from a random-data generator; it is only consulted
for fields with no inline generator (birthday parts, gender). -/

structure RandSource where
  ts : Nat
  emailRand : String
  emailDomain : String
  password : String
  firstName : String
  lastName : String
  userRand : String
  other : String → String

/-- The value `_get_field_value` generates for a missing field when random
data is enabled. -/
def genFieldValue (rs : RandSource) (field site : String) : String :=
  if field = "email" then
    (if site = "linkedin" then "linkedin_test_"
     else if site = "twitter" then "twitter_test_"
     else "test")
    ++ toString rs.ts ++ "_" ++ rs.emailRand ++ "@" ++ rs.emailDomain
  else if field = "password" then rs.password
  else if field = "first_name" || field = "name" then rs.firstName
  else if field = "last_name" then rs.lastName
  else if field = "username" then "user_" ++ toString rs.ts ++ "_" ++ rs.userRand
  else rs.other field

/-- Python truthiness of an optional string (absent or empty are falsy). -/
def truthy : Option String → Bool
  | some v => v ≠ ""
  | none => false

/-- Python `a or b` over optional string values. -/
def pyOr (a b : Option String) : Option String := if truthy a then a else b

/-- `_get_field_value(field, extracted_fields, site)`: the provided value
when present and truthy; otherwise a generated value when random data is
enabled (the random-data module being available); otherwise `None`. -/
def getFieldValue (useRandom : Bool) (rs : RandSource) (field : String)
    (fields : Fields) (site : String) : Option String :=
  match fields.get field with
  | some v =>
    if v ≠ "" then some v
    else if useRandom then some (genFieldValue rs field site) else none
  | none => if useRandom then some (genFieldValue rs field site) else none

/-! ## Actions (`_parse_simple`'s output dictionaries) -/

/-- One action dictionary.  String-valued keys default to `""` (absent);
`missing_fields`, `suggestion` and `details` are `Option`s because the
error contract distinguishes an absent key from an empty one.  `vtype`
models the `"type"` key of `validate_page` actions; `message` models the
`"message"` key read with default `"Information"`. -/
structure ActionData where
  action : String := ""
  url : String := ""
  seconds : ℚ := 0
  query : String := ""
  selector : String := ""
  value : String := ""
  field_type : String := ""
  text : String := ""
  vtype : String := ""
  min_indicators : Nat := 1
  description : String := ""
  is_random_data : Bool := false
  message : String := "Information"
  error : String := ""
  missing_fields : Option (List String) := none
  suggestion : Option String := none
  details : Option String := none
deriving DecidableEq, Repr

def navAct (u : String) : ActionData := { action := "navigate", url := u }

def waitAct (s : ℚ) : ActionData := { action := "wait", seconds := s }

def typeAct (sel v ft desc : String) : ActionData :=
  { action := "type", selector := sel, value := v, field_type := ft,
    description := desc }

def clickAct (sel txt desc : String) : ActionData :=
  { action := "click", selector := sel, text := txt, description := desc }

def selectAct (sel v ft desc : String) : ActionData :=
  { action := "select", selector := sel, value := v, field_type := ft,
    description := desc }

def valAct (t txt : String) (mi : Nat) (desc : String) : ActionData :=
  { action := "validate_page", vtype := t, text := txt, min_indicators := mi,
    description := desc }

def searchAct (q sel desc : String) : ActionData :=
  { action := "search", query := q, selector := sel, description := desc }

/-! ## Search synthesis (`_extract_search_query`, `_handle_search`) -/

/-- The generic lazy-group terminator `(?:\s+on|\s+in|\s+and|\s+then|$)`,
alternatives in written order (after maximal whitespace, since none of the
literals starts with whitespace). -/
def spacesThenLit (w : String) (l : List Char) : Bool :=
  match l with
  | c :: rest => isSpaceCh c && w.data.isPrefixOf (rest.dropWhile isSpaceCh)
  | [] => false

def genTail (l : List Char) : Bool :=
  spacesThenLit "on" l || spacesThenLit "in" l || spacesThenLit "and" l
    || spacesThenLit "then" l || l.isEmpty

/-- The Wikipedia terminator `\s+on\s+wikipedia`. -/
def wikiTail (l : List Char) : Bool :=
  match l with
  | c :: rest =>
    isSpaceCh c &&
      (let r := rest.dropWhile isSpaceCh
       "on".data.isPrefixOf r &&
         match r.drop 2 with
         | d :: r2 =>
           isSpaceCh d && "wikipedia".data.isPrefixOf (r2.dropWhile isSpaceCh)
         | [] => false)
  | [] => false

/-- Lazy `(.+?)` before a terminator: the shortest nonempty group (never
containing a newline, as `.` does not match one) after which the
terminator matches. -/
def lazyGroup (tail : List Char → Bool) : List Char → Option (List Char)
  | [] => none
  | c :: rest =>
    if c = '\n' then none
    else if tail rest then some [c]
    else (lazyGroup tail rest).map (c :: ·)

/-- Optional `(?:for\s+)?` before the lazy group (the `for` alternative
tried first, falling back to the empty alternative if its continuation
fails). -/
def optForGroup (tail : List Char → Bool) (l : List Char) : Option (List Char) :=
  (if "for".data.isPrefixOf l then spacesPlus (lazyGroup tail) (l.drop 3)
   else none)
  <|> lazyGroup tail l

/-- Anchored `kw\s+…` query pattern; `useFor` selects whether the optional
`(?:for\s+)?` is present. -/
def queryAt (kw : String) (useFor : Bool) (tail : List Char → Bool)
    (l : List Char) : Option (List Char) :=
  if kw.data.isPrefixOf l then
    spacesPlus (if useFor then optForGroup tail else lazyGroup tail)
      (l.drop kw.length)
  else none

/-- The words `_extract_search_query` strips from a raw query. -/
def removeWords : List String :=
  siteNames ++ ["add to cart", "add", "buy", "purchase", "and then", "login",
    "signup", "then", "wikipedia", "wiki"]

/-- The cleanup applied to the captured query: `strip()`, replace each
remove-word by a space, re-join on single spaces. -/
def cleanQuery (q : List Char) : String :=
  let q := stripWs q
  let q := removeWords.foldl (fun acc w => replaceAll w.data [' '] acc) q
  mkStr (stripWs ((joinSep " " ((pySplitWs q).map mkStr)).data))

/-- `_extract_search_query`: the five patterns in source order on the
lowercased instruction; the first match's group is cleaned and returned
(possibly empty), `""` when no pattern matches. -/
def extractSearchQuery (instruction : String) : String :=
  let il := pyLower instruction.data
  match
    scanFor (queryAt "search" true wikiTail) il
      <|> scanFor (queryAt "find" false wikiTail) il
      <|> scanFor (queryAt "search" true genTail) il
      <|> scanFor (queryAt "find" false genTail) il
      <|> scanFor (queryAt "look for" false genTail) il
  with
  | some q => cleanQuery q
  | none => ""

/-- The per-site first-product selector in `_handle_search`'s cart branch. -/
def productSelector (site : String) : String :=
  if site = "flipkart" then "a[href*='/p/'], ._1fQZEK, div[data-tkid]"
  else if site = "amazon" then
    "a[href*='/dp/'], .s-result-item h2 a, .s-title-instructions-style h2 a"
  else "a"

/-- The per-site add-to-cart selector in `_handle_search`. -/
def addCartSelector (site : String) : String :=
  if site = "amazon" then
    "#add-to-cart-button, #addToCart, input[name='submit.add-to-cart']"
  else if site = "flipkart" then
    "button:has-text('ADD TO CART'), button._2KpZ6l, ._3v1-ww"
  else "button:has-text('Add to Cart'), #add-to-cart-button"

/-- `_handle_search`. -/
def handleSearch (instruction il site : String) : List ActionData :=
  let base := [navAct (getSiteUrl site), waitAct 3]
  let query := extractSearchQuery instruction
  if query ≠ "" then
    let acts := base ++
      [searchAct query (getSearchSelector site)
        ("Search for " ++ query ++ " on " ++ site),
       waitAct 3]
    if strIn "add to cart" il || strIn "add" il then
      let acts := acts ++ [waitAct 5]
      let acts := acts ++
        (if site = "flipkart" || site = "amazon" then
          [clickAct (productSelector site) "Product" "Click on first product",
           waitAct 5]
         else [])
      acts ++
        [clickAct (addCartSelector site) "Add to Cart" "Click Add to Cart button",
         waitAct 3,
         valAct "shopping" "Added to Cart,Cart,Added,Proceed to checkout" 1
           "Verify item added to cart"]
    else acts
  else base

/-! ## Login synthesis (`_handle_login` and the site-specific handlers) -/

/-- `_handle_twitter_login`. -/
def twitterLogin (e p : String) : List ActionData :=
  [typeAct "input[autocomplete='username'], input[name='text'], input[type='text']"
     e "username" ("Enter username: " ++ e),
   waitAct 2,
   clickAct "button[type='submit'], button:has-text('Next'), div[role='button']:has-text('Next'), span:has-text('Next')"
     "Next" "Click Next button",
   waitAct 3,
   typeAct "input[type='password'], input[name='password'], input[data-testid='LoginForm_Login_Button'] ~ input[type='password']"
     p "password" "Enter password",
   waitAct 2,
   clickAct "button[type='submit'], button[data-testid*='Login'], button:has-text('Log in'), div[role='button']:has-text('Log in')"
     "Log in" "Click Login button",
   waitAct 5,
   valAct "login" "@" 1 "Verify login successful"]

/-- `_handle_facebook_login`. -/
def facebookLogin (e p : String) : List ActionData :=
  [typeAct "input[name='email'], input[type='email'], input[id='email']" e
     "email" ("Enter email: " ++ e),
   waitAct 1,
   typeAct "input[name='pass'], input[type='password']" p "password"
     "Enter password",
   waitAct 1,
   clickAct "button[name='login'], button[type='submit']" "Log in"
     "Click Login button",
   waitAct 5,
   valAct "login" "Profile" 2 "Verify login successful"]

/-- `_handle_linkedin_login`. -/
def linkedinLogin (e p : String) : List ActionData :=
  [typeAct "input[name='session_key'], input[id='username'], input[type='text']"
     e "email" ("Enter email: " ++ e),
   waitAct 1,
   typeAct "input[name='session_password'], input[id='password'], input[type='password']"
     p "password" "Enter password",
   waitAct 1,
   clickAct "button[type='submit'], button:has-text('Sign in')" "Sign in"
     "Click Sign in button",
   waitAct 5,
   valAct "login" "Feed" 2 "Verify login successful"]

/-- `_handle_generic_login`. -/
def genericLogin (e p : String) : List ActionData :=
  [(if strIn "@" e then
      typeAct "input[type='email'], input[name='email'], input[placeholder*='email']"
        e "email" ("Enter email: " ++ e)
    else
      typeAct "input[name='username'], input[placeholder*='username']" e
        "username" ("Enter username: " ++ e)),
   waitAct 1,
   typeAct "input[type='password'], input[name='password']" p "password"
     "Enter password",
   waitAct 1,
   clickAct "button[type='submit'], button:has-text('Log in'), button:has-text('Sign in')"
     "Log in" "Click Login button",
   waitAct 5,
   valAct "login" "Profile" 2 "Verify login successful"]

/-- The error dictionary `_handle_login` returns for missing credentials. -/
def loginErrAction (ur : Bool) (missing : List String) : ActionData :=
  { action := "error",
    error := "Login failed: Missing required fields: "
      ++ joinSep ", " missing
      ++ (if !ur then
           ". Enable 'Use Random Data' to auto-fill missing fields."
          else ""),
    missing_fields := some missing,
    details := some ("Required: " ++ joinSep ", " missing) }

/-- The email-or-username value `_handle_login` resolves (`email or
username`, with Python `or` truthiness). -/
def loginEmailOf (ur : Bool) (rs : RandSource) (site : String) (fields : Fields) :
    Option String :=
  pyOr (getFieldValue ur rs "email" fields site)
    (getFieldValue ur rs "username" fields site)

/-- The password value `_handle_login` resolves. -/
def loginPasswordOf (ur : Bool) (rs : RandSource) (site : String)
    (fields : Fields) : Option String :=
  getFieldValue ur rs "password" fields site

/-- The `missing` list `_handle_login` accumulates. -/
def loginMissingOf (ur : Bool) (rs : RandSource) (site : String)
    (fields : Fields) : List String :=
  (if !truthy (loginEmailOf ur rs site fields) then ["email or username"]
   else []) ++
  (if !truthy (loginPasswordOf ur rs site fields) then ["password"] else [])

/-- `_handle_login`: navigate to the login URL, resolve the credentials (an
absent one may be generated when random data is enabled), return the error
dictionary when any is still missing, otherwise emit the per-site action
sequence. -/
def handleLogin (ur : Bool) (rs : RandSource) (site : String) (fields : Fields) :
    List ActionData :=
  let acts :=
    (match siteCfg site with
     | some c => [navAct (c.login_url.getD c.url)]
     | none => [navAct (getSiteUrl site)]) ++ [waitAct 5]
  if loginMissingOf ur rs site fields ≠ [] then
    [loginErrAction ur (loginMissingOf ur rs site fields)]
  else
    let e := (loginEmailOf ur rs site fields).getD ""
    let p := (loginPasswordOf ur rs site fields).getD ""
    acts ++
      (if site = "twitter" || site = "x.com" then twitterLogin e p
       else if site = "facebook" then facebookLogin e p
       else if site = "linkedin" then linkedinLogin e p
       else genericLogin e p)

/-! ## Signup synthesis (`_handle_signup` and the site-specific handlers) -/

/-- Ordered dictionary lookup for `generated_fields`. -/
def assocGet (l : List (String × String)) (k : String) : Option String :=
  (l.find? (fun p => p.1 = k)).map (fun p => p.2)

/-- Ordered dictionary update for `generated_fields` (Python dicts keep the
first-insertion position on overwrite). -/
def assocSet (l : List (String × String)) (k v : String) :
    List (String × String) :=
  if (l.find? (fun p => p.1 = k)).isSome then
    l.map (fun p => if p.1 = k then (k, v) else p)
  else l ++ [(k, v)]

/-- `_handle_twitter_signup`. -/
def twitterSignup (g : List (String × String)) : List ActionData :=
  let nm := (assocGet g "name").getD "Test User"
  let em := (assocGet g "email").getD ""
  let pw := (assocGet g "password").getD ""
  let bm := (assocGet g "birth_month").getD "January"
  let bd := (assocGet g "birth_day").getD "1"
  let by_ := (assocGet g "birth_year").getD "1990"
  [typeAct "input[name='name'], input[placeholder*='name']" nm "name"
     ("Enter name: " ++ nm),
   waitAct 1,
   typeAct "input[name='email'], input[type='email']" em "email"
     ("Enter email: " ++ em),
   waitAct 1,
   clickAct "button[type='submit'], button:has-text('Next'), div[role='button']:has-text('Next')"
     "Next" "Click Next button",
   waitAct 3,
   selectAct "select[aria-label='Month']" bm "birth_month"
     ("Select birth month: " ++ bm),
   waitAct 1,
   selectAct "select[aria-label='Day']" bd "birth_day"
     ("Select birth day: " ++ bd),
   waitAct 1,
   selectAct "select[aria-label='Year']" by_ "birth_year"
     ("Select birth year: " ++ by_),
   waitAct 1,
   clickAct "button[type='submit'], button:has-text('Next'), div[role='button']:has-text('Next')"
     "Next" "Click Next after birthday",
   waitAct 3,
   typeAct "input[name='password'], input[type='password']" pw "password"
     "Enter password",
   waitAct 1,
   clickAct "button[type='submit'], button:has-text('Next'), div[role='button']:has-text('Next')"
     "Next" "Click Next after password",
   waitAct 5,
   valAct "signup" "Verify" 1 "Verify signup successful"]

/-- `_handle_linkedin_signup` (its `is_random_data` flags test key absence
in the dictionary it receives, as the source does). -/
def linkedinSignup (g : List (String × String)) : List ActionData :=
  let fn := (assocGet g "first_name").getD "Test"
  let ln := (assocGet g "last_name").getD "User"
  let em := (assocGet g "email").getD ""
  let pw := (assocGet g "password").getD ""
  [{ action := "type", selector := "input[name='first-name'], input[id='first-name']",
     value := fn, field_type := "first_name",
     description := "Enter first name: " ++ fn,
     is_random_data := (assocGet g "first_name").isNone },
   waitAct 0.5,
   { action := "type", selector := "input[name='last-name'], input[id='last-name']",
     value := ln, field_type := "last_name",
     description := "Enter last name: " ++ ln,
     is_random_data := (assocGet g "last_name").isNone },
   waitAct 0.5,
   { action := "type",
     selector := "input[name='email-address'], input[id='email-address']",
     value := em, field_type := "email", description := "Enter email: " ++ em,
     is_random_data := (assocGet g "email").isNone },
   waitAct 0.5,
   { action := "type", selector := "input[name='password'], input[id='password']",
     value := pw, field_type := "password", description := "Enter password",
     is_random_data := (assocGet g "password").isNone },
   waitAct 0.5,
   clickAct "button[type='submit'], button:has-text('Agree & Join'), button:has-text('Join now')"
     "Agree & Join" "Click Agree & Join button",
   waitAct 5,
   valAct "signup" "Verify,Check your email,Enter confirmation code,Welcome" 1
     "Verify signup successful (even if email verification needed)"]

/-- Python `str.capitalize()` (ASCII model). -/
def pyCapitalize (s : String) : String :=
  match s.data with
  | [] => ""
  | c :: rest => mkStr (c.toUpper :: pyLower rest)

/-- `_handle_facebook_signup`. -/
def facebookSignup (g : List (String × String)) : List ActionData :=
  let fn := (assocGet g "first_name").getD "Test"
  let ln := (assocGet g "last_name").getD "User"
  let em := (assocGet g "email").getD ""
  let pw := (assocGet g "password").getD ""
  let bd := (assocGet g "birth_day").getD "1"
  let bm := (assocGet g "birth_month").getD "January"
  let by_ := (assocGet g "birth_year").getD "1990"
  let gender := (assocGet g "gender").getD "female"
  let gv := if gender ≠ "" && mkStr (pyLower gender.data) = "male" then "2" else "1"
  [clickAct "a[data-testid='open-registration-form-button']" "Create Account"
     "Click Create Account button",
   waitAct 3,
   typeAct "input[name='firstname']" fn "first_name"
     ("Enter first name: " ++ fn),
   waitAct 0.5,
   typeAct "input[name='lastname']" ln "last_name" ("Enter last name: " ++ ln),
   waitAct 0.5,
   typeAct "input[name='reg_email__']" em "email" ("Enter email: " ++ em),
   waitAct 0.5,
   typeAct "input[name='reg_email_confirmation__']" em "email_confirm"
     "Confirm email",
   waitAct 0.5,
   typeAct "input[name='reg_passwd__']" pw "password" "Enter password",
   waitAct 0.5,
   selectAct "select[name='birthday_day']" bd "birth_day"
     ("Select birth day: " ++ bd),
   waitAct 0.5,
   selectAct "select[name='birthday_month']" bm "birth_month"
     ("Select birth month: " ++ bm),
   waitAct 0.5,
   selectAct "select[name='birthday_year']" by_ "birth_year"
     ("Select birth year: " ++ by_),
   waitAct 0.5,
   { action := "click", selector := "input[value='" ++ gv ++ "']",
     text := if gender ≠ "" then pyCapitalize gender else "Female",
     field_type := "gender",
     description := "Select gender: " ++ (if gender ≠ "" then gender else "Female") },
   waitAct 1,
   clickAct "button[name='websubmit']" "Sign Up" "Click Sign Up button",
   waitAct 5,
   valAct "signup" "Confirm" 1 "Verify signup successful"]

/-- `_handle_generic_signup`. -/
def genericSignup (g : List (String × String)) : List ActionData :=
  let nm := (assocGet g "name").getD "Test User"
  let em := (assocGet g "email").getD ""
  let pw := (assocGet g "password").getD ""
  [clickAct "a:has-text('Sign up'), a:has-text('Create New Account'), button:has-text('Sign up'), button:has-text('Join')"
     "Sign up" "Click Sign up button",
   waitAct 3] ++
  (if nm ≠ "" then
    [typeAct "input[name='name'], input[placeholder*='name']" nm "name"
       ("Enter name: " ++ nm),
     waitAct 0.5]
   else []) ++
  [typeAct "input[type='email'], input[name='email']" em "email"
     ("Enter email: " ++ em),
   waitAct 0.5,
   typeAct "input[type='password'], input[name='password']" pw "password"
     "Enter password",
   waitAct 0.5,
   clickAct "button[type='submit'], button:has-text('Sign up'), button:has-text('Next'), button:has-text('Join')"
     "Sign up" "Click Sign up button",
   waitAct 5,
   valAct "signup" "Confirm" 1 "Verify signup successful"]

/-- The error dictionary `_handle_signup` returns for missing fields. -/
def signupErrAction (ur : Bool) (site : String) (missing required : List String) :
    ActionData :=
  { action := "error",
    error := "Signup failed: Missing required fields: "
      ++ joinSep ", " missing
      ++ (if !ur then
           ". Enable 'Use Random Data' to auto-fill missing fields."
          else ""),
    missing_fields := some missing,
    suggestion := some ("For " ++ site ++ " signup, you need: "
      ++ joinSep ", " required) }

/-- The required-fields list `_handle_signup` starts from (the site's
`signup_fields`, else the `["email", "password"]` default). -/
def signupBaseRequired (site : String) : List String :=
  match siteCfg site with
  | some c => c.signup_fields.getD ["email", "password"]
  | none => ["email", "password"]

/-- The get-or-generate loop of `_handle_signup`: each truthy resolved
value is stored under its field name. -/
def resolveInto (ur : Bool) (rs : RandSource) (site : String) (fields : Fields)
    (req : List String) (init : List (String × String)) :
    List (String × String) :=
  req.foldl
    (fun acc f =>
      match getFieldValue ur rs f fields site with
      | some v => if v ≠ "" then assocSet acc f v else acc
      | none => acc)
    init

/-- The required-fields list after the LinkedIn extension (`first_name` and
`last_name` appended when absent). -/
def signupRequired (site : String) : List String :=
  if site = "linkedin" then
    let r :=
      if !(signupBaseRequired site).contains "first_name" then
        signupBaseRequired site ++ ["first_name"]
      else signupBaseRequired site
    if !r.contains "last_name" then r ++ ["last_name"] else r
  else signupBaseRequired site

/-- The `generated_fields` dictionary of `_handle_signup` (the base loop,
then for LinkedIn the extra first/last-name resolution). -/
def signupGenerated (ur : Bool) (rs : RandSource) (site : String)
    (fields : Fields) : List (String × String) :=
  let g := resolveInto ur rs site fields (signupBaseRequired site) []
  if site = "linkedin" then
    resolveInto ur rs site fields ["first_name", "last_name"] g
  else g

/-- The `missing` list of `_handle_signup`. -/
def signupMissing (ur : Bool) (rs : RandSource) (site : String)
    (fields : Fields) : List String :=
  (signupRequired site).filter
    (fun f =>
      match assocGet (signupGenerated ur rs site fields) f with
      | some v => v = ""
      | none => true)

/-- `_handle_signup`: resolve each required field (generating missing ones
when random data is enabled), extend LinkedIn's requirements with the name
fields, return the error dictionary when any required field is still
missing, otherwise navigate to the signup URL and emit the per-site
sequence. -/
def handleSignup (ur : Bool) (rs : RandSource) (site : String) (fields : Fields) :
    List ActionData :=
  let generated := signupGenerated ur rs site fields
  if signupMissing ur rs site fields ≠ [] then
    [signupErrAction ur site (signupMissing ur rs site fields)
      (signupRequired site)]
  else
    ((match siteCfg site with
      | some c => [navAct (c.signup_url.getD c.url)]
      | none => [navAct (getSiteUrl site)]) ++ [waitAct 3]) ++
    (if site = "twitter" || site = "x.com" then twitterSignup generated
     else if site = "facebook" then facebookSignup generated
     else if site = "linkedin" then linkedinSignup generated
     else genericSignup generated)

/-! ## Navigation synthesis (`_handle_navigation`) -/

/-- First alternative of the URL pattern: `https?://[^\s]+`. -/
def urlAlt1 (l : List Char) : Option (List Char) :=
  if "https://".data.isPrefixOf l then
    let w := (l.drop 8).takeWhile (fun c => !isSpaceCh c)
    if w.isEmpty then none else some ("https://".data ++ w)
  else if "http://".data.isPrefixOf l then
    let w := (l.drop 7).takeWhile (fun c => !isSpaceCh c)
    if w.isEmpty then none else some ("http://".data ++ w)
  else none

/-- Second alternative: `www\.[^\s]+`. -/
def urlAlt2 (l : List Char) : Option (List Char) :=
  if "www.".data.isPrefixOf l then
    let w := (l.drop 4).takeWhile (fun c => !isSpaceCh c)
    if w.isEmpty then none else some ("www.".data ++ w)
  else none

/-- Whether the non-space run has, after at least one character, a dot
followed by `com`, `org`, `net` or `in`. -/
def dotExtScan : List Char → Bool
  | [] => false
  | c :: rest =>
    (c = '.' && ["com", "org", "net", "in"].any (fun e => e.data.isPrefixOf rest))
      || dotExtScan rest

/-- Third alternative: `\S+\.(com|org|net|in)[^\s]*`.  Whichever dot the
backtracking picks, the trailing `[^\s]*` is greedy, so the match is the
whole non-space run. -/
def urlAlt3 (l : List Char) : Option (List Char) :=
  let run := l.takeWhile (fun c => !isSpaceCh c)
  match run with
  | [] => none
  | _ :: rest => if dotExtScan rest then some run else none

/-- Anchored URL pattern `(https?://[^\s]+|www\.[^\s]+|\S+\.(com|org|net|in)[^\s]*)`,
alternatives in written order; the source searches it over the original
instruction (case-sensitively). -/
def urlAt (l : List Char) : Option (List Char) :=
  urlAlt1 l <|> urlAlt2 l <|> urlAlt3 l

/-- `_handle_navigation`. -/
def handleNavigation (instruction site : String) : List ActionData :=
  if site ≠ "unknown" then [navAct (getSiteUrl site), waitAct 3]
  else
    match scanFor urlAt instruction.data with
    | some u =>
      let u := mkStr u
      [navAct (if "http".data.isPrefixOf u.data then u else "https://" ++ u),
       waitAct 3]
    | none =>
      [{ action := "error",
         error := "Could not find URL in: " ++ instruction,
         suggestion := some "Try: 'go to google.com' or 'open wikipedia.org'" }]

/-! ## The compiler (`_parse_simple`, `parse`) -/

/-- `_parse_simple`: extract fields, detect the site and the action type,
dispatch to the per-intent handler; with no recognized intent, navigate to
a known site or return the could-not-understand error. -/
def parseSimple (ur : Bool) (rs : RandSource) (instruction : String) :
    List ActionData :=
  let il : String := mkStr (pyLower instruction.data)
  let fields := extractAll instruction
  let site := detectSite il
  let aty := detectActionType il
  if aty = "search" then handleSearch instruction il site
  else if aty = "login" then handleLogin ur rs site fields
  else if aty = "signup" then handleSignup ur rs site fields
  else if aty = "navigate" then handleNavigation instruction site
  else if site ≠ "unknown" then [navAct (getSiteUrl site)]
  else
    [{ action := "error",
       error := "Could not understand: " ++ instruction,
       suggestion := some "Try: 'login to facebook with email test@mail.com password pass123' or 'search laptop on amazon'" }]

/-- `UniversalParser.parse` in regex mode (no API key, so `use_ai` is
false): strip the instruction, return the empty-instruction error when
nothing remains, otherwise run `_parse_simple`. -/
def parse (ur : Bool) (rs : RandSource) (instruction : String) :
    List ActionData :=
  let t := mkStr (stripWs instruction.data)
  if t = "" then [{ action := "error", error := "Empty instruction" }]
  else parseSimple ur rs t

/-! ## Execution engine: selector catalog (`UniversalExecutor.field_selectors`,
`action_selectors`) -/

/-- `field_selectors`: the prioritized per-field selector candidates; the
lookup returns `[]` for a field kind not in the catalog, mirroring the
`field_type and field_type in self.field_selectors` guard. -/
def fieldSelectors : String → List String
  | "search" =>
    ["#searchInput", "input[name='search']", "#twotabsearchtextbox", "#search",
     ".search-input", "input[type='search']", "input[name='q']",
     "textarea[name='q']", "input[name='search_query']",
     "input[placeholder*='Search' i]", "input[title='Search']",
     "input[type='text']", "input"]
  | "email" =>
    ["input[name='email-address']", "input[type='email']", "input[name='email']",
     "input[name='session_key']", "input[name='reg_email__']", "input[id='email']",
     "input[placeholder*='email' i]", "input[autocomplete='email']"]
  | "username" =>
    ["input[autocomplete='username']", "input[name='text']", "input[type='text']",
     "input[name='username']", "input[name='session_username']",
     "input[id='username']", "input[placeholder*='username' i]",
     "input[placeholder*='Phone' i]"]
  | "password" =>
    ["input[type='password']", "input[name='pass']", "input[name='password']",
     "input[name='session_password']", "input[name='reg_passwd__']",
     "input[placeholder*='password' i]", "input[autocomplete='new-password']"]
  | "name" =>
    ["input[name='name']", "input[data-testid*='name']",
     "input[placeholder*='name' i]", "input[placeholder*='Full name' i]"]
  | "first_name" =>
    ["input[name='first-name']", "input[id='first-name']",
     "input[name='firstname']", "input[name='firstName']",
     "input[placeholder*='first name' i]"]
  | "last_name" =>
    ["input[name='last-name']", "input[id='last-name']",
     "input[name='lastname']", "input[name='lastName']",
     "input[placeholder*='last name' i]"]
  | _ => []

/-- `action_selectors["login_button"]`. -/
def loginButtonSelectors : List String :=
  ["button[name='login']", "button:has-text('Log in')",
   "button:has-text('Sign in')", "button[type='submit']",
   "button[data-testid*='Login']", "div[role='button']:has-text('Log in')",
   "input[type='submit'][value='Sign in']"]

/-- `action_selectors["signup_button"]`. -/
def signupButtonSelectors : List String :=
  ["a[data-testid='open-registration-form-button']",
   "a:has-text('Create New Account')", "a:has-text('Sign up')",
   "button:has-text('Sign up')", "button:has-text('Create account')",
   "button:has-text('Join')", "button:has-text('Agree & Join')",
   "button:has-text('Join now')"]

/-- `action_selectors["next_button"]`. -/
def nextButtonSelectors : List String :=
  ["button:has-text('Next')", "div[role='button']:has-text('Next')",
   "button[type='submit']", "span:has-text('Next')"]

/-- `action_selectors["add_to_cart"]`. -/
def addToCartSelectors : List String :=
  ["#add-to-cart-button", "button:has-text('Add to Cart' i)",
   "input[value='Add to Cart']", "button[id*='add-to-cart' i]",
   "button[class*='add-to-cart' i]"]

/-- `action_selectors["search_button"]`. -/
def searchButtonSelectors : List String :=
  ["#searchButton", ".search-button", "button[aria-label*='search' i]",
   "input[type='submit'][value='Google Search']", "button[type='submit']",
   "input[value='Search']", "button:has-text('Search')",
   "input[type='submit'][value*='Search' i]"]

/-! ## Execution engine: the browser abstraction

The live Playwright page is abstracted as predicates telling, for each
selector string, whether the corresponding operation (wait for visibility,
scroll, perform) completes; a raised Playwright error and a failed wait
alike make the predicate false, which the per-candidate `except: continue`
turns into moving on.  `searchDetailFor` abstracts the page-dependent
success message `_perform_search` builds from the landed URL and content. -/

structure Page where
  url : String
  typeOk : String → Bool
  clickOk : String → Bool
  searchOk : String → Bool
  searchDetailFor : String → String
  selVisible : String → Bool
  selectValOk : String → String → Bool
  selectLabelOk : String → String → Bool
  selectIdxOk : String → Nat → Bool
  genericTypeOk : Bool
  textClickOk : String → Bool

/-- The shared candidate loop: try each selector in order, return the first
success together with the list of candidates actually attempted. -/
def tryOrd (ok : String → Bool) : List String → Option String × List String
  | [] => (none, [])
  | c :: cs =>
    if ok c then (some c, [c])
    else
      let r := tryOrd ok cs
      (r.1, c :: r.2)

/-- The compiler-supplied selector hint split on commas, each candidate
stripped (`[s.strip() for s in selector.split(',')]`), guarded by the
source's `if selector:`. -/
def splitHint (sel : String) : List String :=
  if sel = "" then []
  else (splitOnCh ',' sel.data).map (fun l => mkStr (stripWs l))

/-- The result of one handler: the `{"action", "status", "details"}`
dictionary. -/
structure StepRes where
  action : String
  status : String
  details : String
deriving DecidableEq, Repr

/-- The LinkedIn pre-pass plus hint plus catalog candidate list of
`_execute_type`. -/
def typeCandidates (page : Page) (a : ActionData) : List String :=
  (if a.field_type = "email" && strIn "linkedin" page.url then
    ["input[name='email-address']", "input[id='email-address']"]
   else [])
  ++ splitHint a.selector ++ fieldSelectors a.field_type

/-- `_execute_type` with `_perform_type`: candidates in order, first
success wins; `_perform_type` masks a password value in the details; the
final generic-input fallback fills the first accepting `<input>` and
reports the value unmasked.  Returns the step result and the attempted
selectors. -/
def executeType (page : Page) (a : ActionData) : StepRes × List String :=
  if a.value = "" then
    ({ action := "type", status := "Failed", details := "No value to type" }, [])
  else
    match tryOrd page.typeOk (typeCandidates page a) with
    | (some _, tr) =>
      ({ action := "type", status := "Passed",
         details := "Typed " ++ a.field_type ++ ": "
           ++ (if a.field_type = "password" then "********" else a.value) }, tr)
    | (none, tr) =>
      if page.genericTypeOk then
        ({ action := "type", status := "Passed",
           details := "Typed " ++ a.field_type ++ ": " ++ a.value },
         tr ++ ["input"])
      else
        ({ action := "type", status := "Failed",
           details := "Input field for " ++ a.field_type ++ " not found" },
         tr ++ ["input"])

/-- `_execute_click`'s text-derived strategies (the five `has-text` shapes,
then the keyword-selected catalog list, with the LinkedIn extras). -/
def clickTextStrategies (page : Page) (text : String) : List String :=
  let tl := mkStr (pyLower text.data)
  ["button:has-text('" ++ text ++ "')",
   "a:has-text('" ++ text ++ "')",
   "div[role='button']:has-text('" ++ text ++ "')",
   "span:has-text('" ++ text ++ "')",
   "input[value='" ++ text ++ "']"]
  ++ (if strIn "login" tl || strIn "log in" tl || strIn "sign in" tl then
        loginButtonSelectors
      else if strIn "sign up" tl || strIn "create account" tl
          || strIn "join" tl || strIn "agree" tl then
        signupButtonSelectors
          ++ (if strIn "linkedin" page.url then
                ["button:has-text('Agree & Join')", "button:has-text('Join now')"]
              else [])
      else if strIn "next" tl then nextButtonSelectors
      else if strIn "add to cart" tl then addToCartSelectors
      else if strIn "search" tl then searchButtonSelectors
      else [])

/-- `_execute_click`'s full strategy list: the hint candidates prepended to
the text strategies. -/
def clickCandidates (page : Page) (a : ActionData) : List String :=
  splitHint a.selector
    ++ (if a.text ≠ "" then clickTextStrategies page a.text else [])

/-- `_execute_click`: strategies in order, first success wins, then the
last-resort `text=` click, else Failed. -/
def executeClick (page : Page) (a : ActionData) : StepRes × List String :=
  match tryOrd page.clickOk (clickCandidates page a) with
  | (some s, tr) =>
    ({ action := "click", status := "Passed",
       details := "Clicked: " ++ (if a.text ≠ "" then a.text else s) }, tr)
  | (none, tr) =>
    if a.text ≠ "" && page.textClickOk a.text then
      ({ action := "click", status := "Passed",
         details := "Clicked text: " ++ a.text }, tr ++ ["text=" ++ a.text])
    else
      ({ action := "click", status := "Failed",
         details := "Element not found: "
           ++ (if a.text ≠ "" then a.text else a.selector) },
       tr ++ (if a.text ≠ "" then ["text=" ++ a.text] else []))

/-- `_execute_search`'s candidate list: the hint candidates, then the
search catalog. -/
def searchCandidates (a : ActionData) : List String :=
  splitHint a.selector ++ fieldSelectors "search"

/-- `_execute_search`: candidates in order via `_perform_search`, first
success wins, else Failed. -/
def executeSearch (page : Page) (a : ActionData) : StepRes × List String :=
  if a.query = "" then
    ({ action := "search", status := "Failed", details := "No query" }, [])
  else
    match tryOrd page.searchOk (searchCandidates a) with
    | (some s, tr) =>
      ({ action := "search", status := "Passed",
         details := page.searchDetailFor s }, tr)
    | (none, tr) =>
      ({ action := "search", status := "Failed",
         details := "Search box not found" }, tr)

/-- Python `str.isdigit()` (ASCII model). -/
def isDigits (s : String) : Bool := s ≠ "" && s.data.all isDigitCh

/-- `int(s)` for a digit string. -/
def digitsToNat (s : String) : Nat :=
  s.data.foldl (fun n c => n * 10 + (c.toNat - '0'.toNat)) 0

/-- `_execute_select`: the hint selector is used whole — it is never split
on commas and no catalog list is consulted; after one visibility wait the
three strategies select-by-value, select-by-label and (for a numeric
value) select-by-index are tried on that same selector. -/
def executeSelect (page : Page) (a : ActionData) : StepRes × List String :=
  if a.value = "" then
    ({ action := "select", status := "Failed", details := "No value to select" },
     [])
  else
    let ok :=
      page.selVisible a.selector &&
        (page.selectValOk a.selector a.value
          || page.selectLabelOk a.selector a.value
          || (isDigits a.value && page.selectIdxOk a.selector (digitsToNat a.value)))
    if ok then
      ({ action := "select", status := "Passed",
         details := "Selected " ++ a.field_type ++ ": " ++ a.value },
       [a.selector])
    else
      ({ action := "select", status := "Failed",
         details := "Could not select " ++ a.field_type ++ ": " ++ a.value },
       [a.selector])

/-! ## Execution engine: the step loop (`UniversalExecutor.run`)

The per-action handler call is abstracted by an oracle `Nat → ActionData →
HOutcome` giving, for the step number and action, either the handler's
returned status/details or a raised exception's message; for the
loop-computed kinds (`wait`, `info`, `generate_data`, unknown) the result
the source computes in line is used, the oracle only deciding whether an
exception interrupts it.  Screenshot capture is abstracted by
`cap : Nat → Option String` (the per-step capture's path when the capture
subsystem is available and succeeds) and `finalCap : Option String` (the
final result-page capture). -/

/-- Outcome of the code inside `run`'s per-step `try`. -/
inductive HOutcome where
  | res (status details : String)
  | exn (msg : String)
deriving DecidableEq, Repr

/-- The kinds whose failure does not stop the loop (the literal list in
`run`). -/
def softKinds : List String := ["wait", "validate_page", "info", "generate_data"]

/-- The kinds dispatched to a handler. -/
def handlerKinds : List String :=
  ["navigate", "search", "type", "select", "click", "validate_page"]

/-- Decimal rendering of the wait durations as Python prints them (the
source only ever passes whole and half seconds). -/
def ratStr (q : ℚ) : String :=
  if q.den = 1 then toString q.num
  else toString (q.num / (q.den : ℤ)) ++ "."
    ++ toString (q.num * 10 / (q.den : ℤ) % 10)

/-- The step outcome: the oracle's exception if one is raised, otherwise
the handler's result for handler kinds and the in-line result the loop
computes for the others. -/
def dispatch (oracle : Nat → ActionData → HOutcome) (n : Nat) (a : ActionData) :
    HOutcome :=
  match oracle n a with
  | .exn m => .exn m
  | .res st det =>
    if handlerKinds.contains a.action then .res st det
    else if a.action = "wait" then
      .res "Passed" ("Waited " ++ ratStr a.seconds ++ " seconds")
    else if a.action = "info" then .res "Passed" a.message
    else if a.action = "generate_data" then
      .res "Passed" (a.details.getD "Generated random data")
    else .res "Failed" ("Unknown action: " ++ a.action)

/-- One recorded step of `results` (the keys the loop writes; the
result-page step alone sets `isResultPage`). -/
structure LoopStep where
  step : Nat := 0
  action : String
  status : String
  details : String := ""
  description : String := ""
  field_type : String := ""
  screenshot : Option String := none
  suggestion : String := ""
  isResultPage : Bool := false
deriving DecidableEq, Repr

/-- The step dictionary the loop records: handler result plus step number,
description, field type and the screenshot capture's path. -/
def mkStep (n : Nat) (a : ActionData) (st det : String) (shot : Option String) :
    LoopStep :=
  { step := n, action := a.action, status := st, details := det,
    description := a.description, field_type := a.field_type,
    screenshot := shot }

/-- The synthetic step appended when a hard-kind step fails. -/
def stopStep (k : String) : LoopStep :=
  { action := "execution_stopped", status := "Failed",
    details := "Stopped due to failed action: " ++ k }

/-- The data-usage bookkeeping before each step: a typed value goes to
`generated_data` when flagged (or described) as random, else to
`used_provided_data` when it is a credential. -/
def trackData (a : ActionData) (gen used : List (String × String)) :
    List (String × String) × List (String × String) :=
  if a.action = "type" && a.value ≠ "" then
    if a.is_random_data || strIn "random" (mkStr (pyLower a.description.data)) then
      ((if a.field_type ≠ "" then assocSet gen a.field_type a.value else gen),
       used)
    else
      (gen,
       if a.field_type = "email" || a.field_type = "password" then
         assocSet used a.field_type a.value
       else used)
  else (gen, used)

/-- The step loop of `run`: number the steps from 1; on a handler result,
record the step and stop after appending `execution_stopped` when it
failed with a hard kind; on an exception, record the Failed step with the
exception message and stop at once; also returns the data-usage maps. -/
def loopGo (oracle : Nat → ActionData → HOutcome) (cap : Nat → Option String) :
    Nat → List (String × String) → List (String × String) → List ActionData →
    List LoopStep × List (String × String) × List (String × String)
  | _, gen, used, [] => ([], gen, used)
  | n, gen, used, a :: rest =>
    let gu := trackData a gen used
    match dispatch oracle n a with
    | .res st det =>
      let s := mkStep n a st det (cap n)
      if st = "Failed" && !softKinds.contains a.action then
        ([s, stopStep a.action], gu.1, gu.2)
      else
        let r := loopGo oracle cap (n + 1) gu.1 gu.2 rest
        (s :: r.1, r.2.1, r.2.2)
    | .exn m => ([mkStep n a "Failed" ("Error: " ++ m) (cap n)], gu.1, gu.2)

/-- The final result-page capture step. -/
def finalStep (n : Nat) (path : String) : LoopStep :=
  { step := n, action := "result_page_capture", status := "Passed",
    description := "Capture final result page",
    details := "Result page screenshot captured with analysis",
    screenshot := some path, isResultPage := true }

/-- Python `v[:15] + "..."` when longer than 15 characters. -/
def trunc15 (v : String) : String :=
  if 15 < v.data.length then mkStr (v.data.take 15) ++ "..." else v

/-- One part of the data-usage summary line. -/
def summaryPart (tag : String) (l : List (String × String)) : String :=
  tag ++ ": "
    ++ joinSep ", " (l.map (fun p => p.1 ++ "=" ++ trunc15 p.2))

/-- The data-usage summary step (provided part first, then generated). -/
def dataSummaryStep (gen used : List (String × String)) : LoopStep :=
  { action := "data_summary", status := "Info",
    details := joinSep " | "
      ((if used ≠ [] then [summaryPart "Provided" used] else [])
        ++ (if gen ≠ [] then [summaryPart "Generated" gen] else [])),
    description := "Data usage summary" }

/-- `UniversalExecutor.run`: the empty list and a leading compile-error
marker return a single error step before any browsing; otherwise the step
loop runs, the final result-page capture step is appended when that
capture succeeds, and the data-usage summary is appended when any typed
value was tracked. -/
def run (oracle : Nat → ActionData → HOutcome) (cap : Nat → Option String)
    (finalCap : Option String) (actions : List ActionData) : List LoopStep :=
  match actions with
  | [] => [{ action := "error", status := "Failed", details := "No actions" }]
  | a0 :: _ =>
    if a0.action = "error" then
      [{ action := "error", status := "Failed",
         details := if a0.error ≠ "" then a0.error else "Unknown error",
         suggestion := a0.suggestion.getD "" }]
    else
      let r := loopGo oracle cap 1 [] [] actions
      let steps :=
        match finalCap with
        | some p => r.1 ++ [finalStep (r.1.length + 1) p]
        | none => r.1
      if r.2.1 ≠ [] || r.2.2 ≠ [] then steps ++ [dataSummaryStep r.2.1 r.2.2]
      else steps

/-! ## Concrete fixtures for the theorems -/

/-- One concrete draw of the random sources (`time.time()` and the
`random.choices`/`random.choice` draws), used to evaluate the compiler at
concrete inputs. -/
def rsDemo : RandSource :=
  { ts := 1700000000, emailRand := "abcde12345", emailDomain := "gmail.com",
    password := "Xy9aXy9bXy9c", firstName := "John", lastName := "Smith",
    userRand := "abc12345", other := fun f => "random_" ++ f }

/-- A page on which no selector works but a generic `<input>` accepts a
fill: the configuration that drives `_execute_type` into its final
fallback. -/
def leakPage : Page :=
  { url := "https://example.com", typeOk := fun _ => false,
    clickOk := fun _ => false, searchOk := fun _ => false,
    searchDetailFor := fun _ => "", selVisible := fun _ => false,
    selectValOk := fun _ _ => false, selectLabelOk := fun _ _ => false,
    selectIdxOk := fun _ _ => false, genericTypeOk := true,
    textClickOk := fun _ => false }

/-- The same page with a working password selector and no generic
fallback: the ordinary masked path. -/
def maskPage : Page :=
  { leakPage with
    typeOk := fun s => s = "input[type='password']",
    genericTypeOk := false }

/-- A compiler-shaped password Type action with a custom selector hint. -/
def pwAction : ActionData :=
  typeAct "#custom-pw" "hunter2secret" "password" "Enter password"

/-- An oracle on which every handler succeeds. -/
def oracleOk : Nat → ActionData → HOutcome := fun _ _ => .res "Passed" "ok"

/-- An oracle on which every handler raises (a closed browser, for
instance). -/
def oracleBoom : Nat → ActionData → HOutcome :=
  fun _ _ => .exn "Target page, context or browser has been closed"

/-- An oracle on which every handler reports failure without raising. -/
def oracleFail : Nat → ActionData → HOutcome :=
  fun _ _ => .res "Failed" "Element not found: Log in"

/-- An oracle modelling `time.sleep` raising on a malformed wait duration
(`ValueError: sleep length must be non-negative`). -/
def oracleSleepErr : Nat → ActionData → HOutcome :=
  fun _ _ => .exn "sleep length must be non-negative"

/-- Screenshot capture unavailable at every step. -/
def capNone : Nat → Option String := fun _ => none

/-- A Select action whose compiler hint holds three comma-separated
candidates. -/
def selAction : ActionData :=
  selectAct "c1,c2,c3" "May" "birth_month" "Select birth month: May"

/-- A page for `selAction`: nothing matches `c1`; `c2`'s element is a
dropdown carrying the requested option; `c3`'s element is visible but has
no such option and sits first in document order, so the union selector
`c1,c2,c3` resolves to it and the select strategies fail on it. -/
def selPage : Page :=
  { url := "https://example.com", typeOk := fun _ => false,
    clickOk := fun _ => false, searchOk := fun _ => false,
    searchDetailFor := fun _ => "",
    selVisible := fun s => s = "c2" || s = "c3" || s = "c1,c2,c3",
    selectValOk := fun s v => s = "c2" && v = "May",
    selectLabelOk := fun _ _ => false, selectIdxOk := fun _ _ => false,
    genericTypeOk := false, textClickOk := fun _ => false }

/-- A page for the Type witness of the selector-resolution theorem:
`c1` absent, `c2` and `c3` present. -/
def c2Page : Page :=
  { leakPage with
    typeOk := fun s => s = "c2" || s = "c3",
    genericTypeOk := false }

/-- A Type action whose hint splits into the three candidates `c1`, `c2`,
`c3` (its field kind is outside the catalog, so no catalog candidates are
appended). -/
def c2Action : ActionData := typeAct "c1,c2,c3" "v" "zz" "demo"

/-! ## C9 -/

/-- C9: compiling `"signup on linkedin"` with random data disabled returns
exactly the signup CompileError whose `missing_fields` list is
`[first_name, last_name, email, password]` (LinkedIn's required signup
fields, in registry order), and no actions. -/
theorem c9_linkedin_signup_missing_fields :
    parse false rsDemo "signup on linkedin" =
      [{ action := "error",
         error := "Signup failed: Missing required fields: first_name, last_name, email, password. Enable 'Use Random Data' to auto-fill missing fields.",
         missing_fields := some ["first_name", "last_name", "email", "password"],
         suggestion := some "For linkedin signup, you need: first_name, last_name, email, password" }] := by
  decide

/-! ## C6 -/

/-- C6 (counterexample): compiling `"search apples on google"` with random
data disabled yields four actions and none of them is a ValidatePage, so
the claimed five-action list ending in `ValidatePage(kind=search)` is not
what `compile` returns. -/
theorem c6_counterexample :
    (parse false rsDemo "search apples on google").length = 4 ∧
      ((parse false rsDemo "search apples on google").all
        (fun a => a.action ≠ "validate_page")) = true := by
  constructor
  · decide
  · decide

/-- C6 (amended): compiling `"search apples on google"` with random data
disabled returns exactly `[Navigate(https://google.com), Wait(3),
Search(query="apples", google's search-selector hint), Wait(3)]`; no
ValidatePage action is emitted on a plain search (the search handler only
appends one in its add-to-cart branch). -/
theorem c6_search_apples_on_google :
    parse false rsDemo "search apples on google" =
      [navAct "https://google.com", waitAct 3,
       searchAct "apples" "textarea[name='q'], input[name='q']"
         "Search for apples on google",
       waitAct 3] := by
  decide

/-! ## C1 -/

/-- C1 (counterexample): with `allowRandomData = true`, compiling
`"login to facebook"` — an instruction classified as login that provides
neither credential — does not return a CompileError: the compiler
synthesizes both credentials and emits the nine-action Facebook login
sequence, starting with a Navigate. -/
theorem c1_counterexample :
    ((parse true rsDemo "login to facebook").all
        (fun a => a.action ≠ "error")) = true ∧
      (parse true rsDemo "login to facebook").length = 9 ∧
      (parse true rsDemo "login to facebook").head? =
        some (navAct "https://facebook.com") := by
  refine ⟨by decide, by decide, by decide⟩

/-! ## C2 -/

/-- C2 (code bug, evaluated): on a page where every selector candidate for
a password Type action fails but a generic `<input>` accepts the fill,
the recorded details string is `"Typed password: hunter2secret"` — the
literal password value, unmasked — while the ordinary selector path on
another page masks the very same action's value as `********`. -/
theorem c2_password_leak_in_generic_fallback :
    (executeType leakPage pwAction).1 =
      { action := "type", status := "Passed",
        details := "Typed password: hunter2secret" } ∧
      strIn "hunter2secret" (executeType leakPage pwAction).1.details = true ∧
      (executeType maskPage pwAction).1.details = "Typed password: ********" ∧
      strIn "hunter2secret" (executeType maskPage pwAction).1.details = false := by
  refine ⟨by decide, by decide, by decide, by decide⟩

/-! ## C5 -/

/-- C5 (counterexample): `run` on the empty ActionList returns the single
`error` step and no `result_page_capture` step at all, against the claim
that every run's result contains exactly one. -/
theorem c5_counterexample :
    run oracleOk capNone (some "final.png") [] =
      [{ action := "error", status := "Failed", details := "No actions" }] ∧
      ((run oracleOk capNone (some "final.png") []).countP
        (fun s => s.action = "result_page_capture")) = 0 := by
  refine ⟨by decide, by decide⟩

/-! ## C3 -/

/-- C3 (counterexample): when a hard-kind step fails because its handler
raised (here a Click against a closed browser), the run records the Failed
click step and halts, but no synthetic `execution_stopped` step is
appended — against the claim that every Failed hard-kind step is followed
by one. -/
theorem c3_counterexample :
    ((run oracleBoom capNone (some "final.png")
        [clickAct "button[type='submit']" "Log in" "Click Login button",
         waitAct 2]).countP
      (fun s => s.action = "execution_stopped")) = 0 ∧
      ((run oracleBoom capNone (some "final.png")
          [clickAct "button[type='submit']" "Log in" "Click Login button",
           waitAct 2]).countP
        (fun s => s.action = "click" && s.status = "Failed")) = 1 := by
  refine ⟨by decide, by decide⟩

/-! ## C4 -/

/-- C4 (counterexample): an exception inside a soft-kind step (here
`time.sleep` raising on a malformed Wait duration) halts the run — the
following Navigate never executes — against the claim that the exception
path applies the ordinary continuation policy under which soft kinds
continue; and on a raising hard-kind Type action no `execution_stopped`
step is appended, against the hard-kind half of that policy. -/
theorem c4_counterexample :
    ((run oracleSleepErr capNone (some "final.png")
        [waitAct (-1), navAct "https://example.com"]).countP
      (fun s => s.action = "navigate")) = 0 ∧
      ((run oracleSleepErr capNone (some "final.png")
          [waitAct (-1), navAct "https://example.com"]).countP
        (fun s => s.action = "wait" && s.status = "Failed")) = 1 ∧
      ((run oracleBoom capNone (some "final.png")
          [typeAct "#f" "v" "email" "Enter email",
           waitAct 2]).countP
        (fun s => s.action = "execution_stopped")) = 0 ∧
      ((run oracleBoom capNone (some "final.png")
          [typeAct "#f" "v" "email" "Enter email",
           waitAct 2]).countP
        (fun s => s.action = "type" && s.status = "Failed")) = 1 := by
  refine ⟨by decide, by decide, by decide, by decide⟩

/-! ## C7 -/

/-- C7 (counterexample): for a Select action the engine does not split the
hint on commas and does not try candidates in order: with candidates
`c1` (absent), `c2` (present, holding the requested option) and `c3`
(present), it passes the single string `"c1,c2,c3"` to the browser — the
only selector it attempts — never attempts `c2` on its own, and records
the step Failed even though operating via `c2` would have succeeded. -/
theorem c7_counterexample :
    (executeSelect selPage selAction).1.status = "Failed" ∧
      (executeSelect selPage selAction).2 = ["c1,c2,c3"] ∧
      ("c2" ∈ (executeSelect selPage selAction).2) = False ∧
      selPage.selVisible "c2" = true ∧
      selPage.selectValOk "c2" "May" = true := by
  refine ⟨by decide, by decide, by decide, by decide, by decide⟩

/-- First-success-wins: when the candidate list splits as `pre ++ c :: post`
with every candidate of `pre` failing and `c` succeeding, the ordered
fallback selects `c`, attempts exactly `pre ++ [c]`, and never attempts
anything in `post`. -/
theorem tryOrd_first (ok : String → Bool) (pre : List String) (c : String)
    (post : List String) (hpre : ∀ x ∈ pre, ok x = false) (hc : ok c = true) :
    tryOrd ok (pre ++ c :: post) = (some c, pre ++ [c]) := by
  induction pre with
  | nil => simp [tryOrd, hc]
  | cons p ps ih =>
    have hp : ok p = false := hpre p (by simp)
    have ih' := ih (fun x hx => hpre x (by simp [hx]))
    simp [tryOrd, hp, ih']

/-- C7 (amended): for Type, Click and Search actions the engine tries its
candidate list in priority order (the comma-split hint first), performs
the operation with the first succeeding candidate, attempts nothing after
it, and in particular for candidates `[c1 absent, c2 present, c3 present]`
operates via `c2` and never attempts `c3`.  Select actions do not take
part in this scheme: the engine passes the hint selector to the browser
unsplit, as the single selector it ever attempts, trying the value, label
and numeric-index strategies on it. -/
theorem c7_selector_resolution :
    (∀ (page : Page) (a : ActionData) (pre post : List String) (c : String),
        a.value ≠ "" → typeCandidates page a = pre ++ c :: post →
        (∀ x ∈ pre, page.typeOk x = false) → page.typeOk c = true →
        executeType page a =
          ({ action := "type", status := "Passed",
             details := "Typed " ++ a.field_type ++ ": "
               ++ (if a.field_type = "password" then "********" else a.value) },
           pre ++ [c]))
    ∧ (∀ (page : Page) (a : ActionData) (pre post : List String) (c : String),
        clickCandidates page a = pre ++ c :: post →
        (∀ x ∈ pre, page.clickOk x = false) → page.clickOk c = true →
        executeClick page a =
          ({ action := "click", status := "Passed",
             details := "Clicked: " ++ (if a.text ≠ "" then a.text else c) },
           pre ++ [c]))
    ∧ (∀ (page : Page) (a : ActionData) (pre post : List String) (c : String),
        a.query ≠ "" → searchCandidates a = pre ++ c :: post →
        (∀ x ∈ pre, page.searchOk x = false) → page.searchOk c = true →
        executeSearch page a =
          ({ action := "search", status := "Passed",
             details := page.searchDetailFor c }, pre ++ [c]))
    ∧ (∀ (page : Page) (a : ActionData), a.value ≠ "" →
        (executeSelect page a).2 = [a.selector]) := by
  refine ⟨?_, ?_, ?_, ?_⟩
  · intro page a pre post c hv hcand hpre hc
    rw [executeType, if_neg hv, hcand, tryOrd_first page.typeOk pre c post hpre hc]
  · intro page a pre post c hcand hpre hc
    rw [executeClick, hcand, tryOrd_first page.clickOk pre c post hpre hc]
  · intro page a pre post c hq hcand hpre hc
    rw [executeSearch, if_neg hq, hcand,
      tryOrd_first page.searchOk pre c post hpre hc]
  · intro page a hv
    rw [executeSelect, if_neg hv]
    dsimp only
    split <;> rfl

/-- Witness for the selector-resolution theorem at the claim's own
scenario: hint candidates `c1` (absent), `c2` (present), `c3` (present) —
the engine types via `c2`, attempts exactly `[c1, c2]`, and never
attempts `c3`. -/
theorem c7_selector_resolution_witness :
    executeType c2Page c2Action =
      ({ action := "type", status := "Passed", details := "Typed zz: v" },
       ["c1", "c2"]) ∧ "c3" ∉ (executeType c2Page c2Action).2 := by
  have h := c7_selector_resolution.1 c2Page c2Action ["c1"] ["c3"] "c2"
    (by decide) (by decide) (by decide) (by decide)
  refine ⟨?_, ?_⟩
  · rw [h]; decide
  · rw [h]; decide

/-- C3 (amended): after a step recorded Failed, the continuation policy
depends on how the failure arose.  When the handler returned the failure:
a hard kind (not in the soft set) appends the synthetic
`execution_stopped` step and no later Action executes, while a soft kind
is recorded and execution continues with the next Action.  When the
failure is a caught exception, the loop halts for every kind and no
`execution_stopped` step is appended. -/
theorem c3_continuation_policy :
    (∀ (oracle : Nat → ActionData → HOutcome) (cap : Nat → Option String)
        (n : Nat) (gen used : List (String × String)) (a : ActionData)
        (rest : List ActionData) (det : String),
        dispatch oracle n a = .res "Failed" det →
        softKinds.contains a.action = false →
        loopGo oracle cap n gen used (a :: rest) =
          ([mkStep n a "Failed" det (cap n), stopStep a.action],
           (trackData a gen used).1, (trackData a gen used).2))
    ∧ (∀ (oracle : Nat → ActionData → HOutcome) (cap : Nat → Option String)
        (n : Nat) (gen used : List (String × String)) (a : ActionData)
        (rest : List ActionData) (det : String),
        dispatch oracle n a = .res "Failed" det →
        softKinds.contains a.action = true →
        loopGo oracle cap n gen used (a :: rest) =
          (mkStep n a "Failed" det (cap n) ::
             (loopGo oracle cap (n + 1) (trackData a gen used).1
               (trackData a gen used).2 rest).1,
           (loopGo oracle cap (n + 1) (trackData a gen used).1
             (trackData a gen used).2 rest).2.1,
           (loopGo oracle cap (n + 1) (trackData a gen used).1
             (trackData a gen used).2 rest).2.2))
    ∧ (∀ (oracle : Nat → ActionData → HOutcome) (cap : Nat → Option String)
        (n : Nat) (gen used : List (String × String)) (a : ActionData)
        (rest : List ActionData) (m : String),
        dispatch oracle n a = .exn m →
        loopGo oracle cap n gen used (a :: rest) =
          ([mkStep n a "Failed" ("Error: " ++ m) (cap n)],
           (trackData a gen used).1, (trackData a gen used).2)) := by
  refine ⟨?_, ?_, ?_⟩
  · intro oracle cap n gen used a rest det hd hs
    have hs' : a.action ∉ softKinds := by simpa using hs
    simp only [loopGo]
    rw [hd]
    simp [hs, hs']
  · intro oracle cap n gen used a rest det hd hs
    have hs' : a.action ∈ softKinds := by simpa using hs
    simp only [loopGo]
    rw [hd]
    simp [hs, hs']
  · intro oracle cap n gen used a rest m hd
    simp only [loopGo]
    rw [hd]

/-- Witness for the continuation-policy theorem: a hard-kind Click whose
handler reports failure yields exactly the Failed step plus the synthetic
`execution_stopped` step, the pending Wait never executing. -/
theorem c3_continuation_policy_witness :
    loopGo oracleFail capNone 1 [] []
        [clickAct "button[type='submit']" "Log in" "Click Login button",
         waitAct 2] =
      ([{ step := 1, action := "click", status := "Failed",
          details := "Element not found: Log in",
          description := "Click Login button" },
        { action := "execution_stopped", status := "Failed",
          details := "Stopped due to failed action: click" }],
       [], []) :=
  (c3_continuation_policy.1 oracleFail capNone 1 [] []
      (clickAct "button[type='submit']" "Log in" "Click Login button")
      [waitAct 2] "Element not found: Log in" (by decide) (by decide)).trans
    (by decide)

/-- C4 (amended): when a handler raises, the exception is caught at the
step boundary, a Failed step carrying `Error: <message>` (with the step's
screenshot capture) is recorded, and then the loop halts unconditionally:
no `execution_stopped` step is appended and no further Action executes,
even for a soft kind; the run still proceeds to the final result-page
capture, whose step is appended after the aborted loop. -/
theorem c4_exception_recovery :
    (∀ (oracle : Nat → ActionData → HOutcome) (cap : Nat → Option String)
        (n : Nat) (gen used : List (String × String)) (a : ActionData)
        (rest : List ActionData) (m : String),
        oracle n a = .exn m →
        loopGo oracle cap n gen used (a :: rest) =
          ([mkStep n a "Failed" ("Error: " ++ m) (cap n)],
           (trackData a gen used).1, (trackData a gen used).2))
    ∧ (∀ (oracle : Nat → ActionData → HOutcome) (cap : Nat → Option String)
        (p : String) (a : ActionData) (rest : List ActionData) (m : String),
        a.action ≠ "error" → oracle 1 a = .exn m →
        (run oracle cap (some p) (a :: rest)).countP
          (fun s => s.isResultPage) = 1) := by
  have hloop : ∀ (oracle : Nat → ActionData → HOutcome)
      (cap : Nat → Option String) (n : Nat)
      (gen used : List (String × String)) (a : ActionData)
      (rest : List ActionData) (m : String),
      oracle n a = .exn m →
      loopGo oracle cap n gen used (a :: rest) =
        ([mkStep n a "Failed" ("Error: " ++ m) (cap n)],
         (trackData a gen used).1, (trackData a gen used).2) := by
    intro oracle cap n gen used a rest m hx
    have hd : dispatch oracle n a = .exn m := by
      rw [dispatch, hx]
    simp only [loopGo]
    rw [hd]
  refine ⟨hloop, ?_⟩
  intro oracle cap p a rest m ha hx
  rw [run, if_neg ha, hloop oracle cap 1 [] [] a rest m hx]
  dsimp only
  split
  · simp [List.countP_append, List.countP_cons, mkStep, finalStep,
      dataSummaryStep, List.countP_nil]
  · simp [List.countP_append, List.countP_cons, mkStep, finalStep,
      List.countP_nil]

/-- Witness for the exception-recovery theorem: a raising Click records
the single Failed step with the exception message and the loop stops
without a synthetic step; the final capture still yields exactly one
result-page step. -/
theorem c4_exception_recovery_witness :
    loopGo oracleBoom capNone 1 [] []
        [clickAct "button[type='submit']" "Log in" "Click Login button",
         waitAct 2] =
      ([{ step := 1, action := "click", status := "Failed",
          details := "Error: Target page, context or browser has been closed",
          description := "Click Login button" }],
       [], []) ∧
      (run oracleBoom capNone (some "final.png")
          [clickAct "button[type='submit']" "Log in" "Click Login button",
           waitAct 2]).countP (fun s => s.isResultPage) = 1 :=
  ⟨(c4_exception_recovery.1 oracleBoom capNone 1 [] []
      (clickAct "button[type='submit']" "Log in" "Click Login button")
      [waitAct 2] "Target page, context or browser has been closed"
      (by decide)).trans (by decide),
   c4_exception_recovery.2 oracleBoom capNone "final.png"
     (clickAct "button[type='submit']" "Log in" "Click Login button")
     [waitAct 2] "Target page, context or browser has been closed"
     (by decide) (by decide)⟩

/-- Every step the loop records is named after one of the input actions or
is the synthetic `execution_stopped` step. -/
theorem loopGo_action_mem (oracle : Nat → ActionData → HOutcome)
    (cap : Nat → Option String) :
    ∀ (actions : List ActionData) (n : Nat)
      (gen used : List (String × String)) (s : LoopStep),
      s ∈ (loopGo oracle cap n gen used actions).1 →
      (∃ a ∈ actions, s.action = a.action) ∨ s.action = "execution_stopped" := by
  intro actions
  induction actions with
  | nil => intro n gen used s hs; simp [loopGo] at hs
  | cons a rest ih =>
    intro n gen used s hs
    simp only [loopGo] at hs
    rcases hd : dispatch oracle n a with ⟨st, det⟩ | m
    · rw [hd] at hs
      dsimp only at hs
      by_cases hc : (st = "Failed" && !softKinds.contains a.action) = true
      · rw [if_pos hc] at hs
        simp only [List.mem_cons, List.mem_singleton] at hs
        rcases hs with rfl | rfl | h
        · exact Or.inl ⟨a, by simp, rfl⟩
        · exact Or.inr rfl
        · simp at h
      · rw [if_neg hc] at hs
        simp only [List.mem_cons] at hs
        rcases hs with rfl | h
        · exact Or.inl ⟨a, by simp, rfl⟩
        · rcases ih (n + 1) (trackData a gen used).1 (trackData a gen used).2
              s h with ⟨a', ha', he⟩ | he
          · exact Or.inl ⟨a', by simp [ha'], he⟩
          · exact Or.inr he
    · rw [hd] at hs
      simp only [List.mem_singleton] at hs
      subst hs
      exact Or.inl ⟨a, by simp, rfl⟩

/-- C5 (amended): for every non-empty ActionList whose head is not a
compile-error marker and whose actions carry none of them the reserved
name `result_page_capture`, when the final-page capture succeeds the
returned step list contains exactly one step tagged `result_page_capture`
(appended after the loop ends, however it ends) and is non-empty.  An
empty ActionList, by contrast, returns the single `error` step with no
capture at all. -/
theorem c5_final_capture (oracle : Nat → ActionData → HOutcome)
    (cap : Nat → Option String) (p : String) (a0 : ActionData)
    (rest : List ActionData) (h2 : a0.action ≠ "error")
    (h3 : ∀ x ∈ a0 :: rest, x.action ≠ "result_page_capture") :
    (run oracle cap (some p) (a0 :: rest)).countP
        (fun s => s.action = "result_page_capture") = 1 ∧
      run oracle cap (some p) (a0 :: rest) ≠ [] := by
  rw [run, if_neg h2]
  have hL : (loopGo oracle cap 1 [] [] (a0 :: rest)).1.countP
      (fun s => s.action = "result_page_capture") = 0 := by
    rw [List.countP_eq_zero]
    intro s hs
    rcases loopGo_action_mem oracle cap (a0 :: rest) 1 [] [] s hs with
      ⟨a, ha, he⟩ | he
    · simp [he, h3 a ha]
    · simp [he]
  dsimp only
  split
  · constructor
    · simp [List.countP_append, hL, finalStep, dataSummaryStep]
    · simp
  · constructor
    · simp [List.countP_append, hL, finalStep]
    · simp

/-- Witness for the final-capture theorem: a one-action run whose handler
succeeds yields exactly one result-page step and a non-empty step list. -/
theorem c5_final_capture_witness :
    (run oracleOk capNone (some "final.png")
        [navAct "https://google.com"]).countP
        (fun s => s.action = "result_page_capture") = 1 ∧
      run oracleOk capNone (some "final.png") [navAct "https://google.com"] ≠ [] :=
  c5_final_capture oracleOk capNone "final.png" (navAct "https://google.com")
    [] (by decide) (by decide)

/-- The email-or-username value the login handler resolves for an
instruction (the extracted value, or — with random data on — a generated
one). -/
def loginEmailValue (ur : Bool) (rs : RandSource) (s : String) : Option String :=
  loginEmailOf ur rs (detectSite (mkStr (pyLower s.data))) (extractAll s)

/-- The password value the login handler resolves for an instruction. -/
def loginPasswordValue (ur : Bool) (rs : RandSource) (s : String) :
    Option String :=
  loginPasswordOf ur rs (detectSite (mkStr (pyLower s.data))) (extractAll s)

/-- The missing-fields list the login handler computes for an instruction. -/
def loginMissing (ur : Bool) (rs : RandSource) (s : String) : List String :=
  loginMissingOf ur rs (detectSite (mkStr (pyLower s.data))) (extractAll s)

/-- C1 (amended): for every instruction classified as login, when
`allowRandomData` is false and the instruction provides no
email-or-username value or no password value, `compile` returns exactly
the login CompileError carrying the missing fields and emits no Action
list.  (When `allowRandomData` is true the compiler instead synthesizes
the missing credentials and emits the login sequence — see the
counterexample.) -/
theorem c1_login_missing_credentials (rs : RandSource) (s : String)
    (hstrip : stripWs s.data = s.data) (hne : s ≠ "")
    (hlogin : detectActionType (mkStr (pyLower s.data)) = "login")
    (hmiss : truthy (loginEmailValue false rs s) = false ∨
      truthy (loginPasswordValue false rs s) = false) :
    parse false rs s = [loginErrAction false (loginMissing false rs s)] ∧
      loginMissing false rs s ≠ [] := by
  have hmiss' : loginMissing false rs s ≠ [] := by
    rcases hmiss with h | h
    · simp only [loginEmailValue] at h
      simp [loginMissing, loginMissingOf, h]
    · simp only [loginPasswordValue] at h
      simp [loginMissing, loginMissingOf, h]
  have hts : mkStr (stripWs s.data) = s := by rw [hstrip]; rfl
  refine ⟨?_, hmiss'⟩
  rw [parse]
  rw [hts, if_neg hne, parseSimple]
  rw [hlogin]
  rw [if_neg (by decide : ¬("login" = "search")), if_pos rfl, handleLogin]
  dsimp only
  rw [if_pos]
  · rfl
  · exact hmiss'

/-- Witness for the missing-credentials theorem at `"login to facebook"`:
both credentials are absent, so compile returns the CompileError carrying
`["email or username", "password"]` and no actions. -/
theorem c1_login_missing_credentials_witness :
    parse false rsDemo "login to facebook" =
      [{ action := "error",
         error := "Login failed: Missing required fields: email or username, password. Enable 'Use Random Data' to auto-fill missing fields.",
         missing_fields := some ["email or username", "password"],
         details := some "Required: email or username, password" }] ∧
      loginMissing false rsDemo "login to facebook" =
        ["email or username", "password"] := by
  have h := c1_login_missing_credentials rsDemo "login to facebook"
    (by decide) (by decide) (by decide) (Or.inl (by decide))
  refine ⟨h.1.trans (by decide), by decide⟩

/-! ## The error contract (C8) -/

theorem str_append_ne_empty (p q : String) (hp : p ≠ "") : p ++ q ≠ "" := by
  intro h
  apply hp
  have hd := congrArg String.data h
  rw [String.data_append] at hd
  rcases List.append_eq_nil.mp hd with ⟨h1, _⟩
  exact String.ext h1

/-- What holds of every error dictionary `compile` can return: a nonempty
message, a nonempty `missing_fields` list whenever one is attached, and —
whenever one is attached — a `suggestion` or a `details` entry beside it. -/
def errContractOk (e : ActionData) : Bool :=
  (e.error ≠ "") && (e.missing_fields ≠ some ([] : List String)) &&
    (!e.missing_fields.isSome || e.suggestion.isSome || e.details.isSome)

theorem all_ne_error_elim {l : List ActionData}
    (hl : l.all (fun a => a.action ≠ "error") = true) {e : ActionData}
    (he : e ∈ l) : e.action ≠ "error" := by
  have := List.all_eq_true.mp hl e he
  simpa using this

theorem twitterLogin_all (e p : String) :
    (twitterLogin e p).all (fun a => a.action ≠ "error") = true := by
  simp [twitterLogin, typeAct, clickAct, valAct, waitAct]

theorem facebookLogin_all (e p : String) :
    (facebookLogin e p).all (fun a => a.action ≠ "error") = true := by
  simp [facebookLogin, typeAct, clickAct, valAct, waitAct]

theorem linkedinLogin_all (e p : String) :
    (linkedinLogin e p).all (fun a => a.action ≠ "error") = true := by
  simp [linkedinLogin, typeAct, clickAct, valAct, waitAct]

theorem genericLogin_all (e p : String) :
    (genericLogin e p).all (fun a => a.action ≠ "error") = true := by
  simp only [genericLogin]
  split <;> simp [typeAct, clickAct, valAct, waitAct]

theorem twitterSignup_all (g : List (String × String)) :
    (twitterSignup g).all (fun a => a.action ≠ "error") = true := by
  simp [twitterSignup, typeAct, clickAct, valAct, waitAct, selectAct]

theorem linkedinSignup_all (g : List (String × String)) :
    (linkedinSignup g).all (fun a => a.action ≠ "error") = true := by
  simp [linkedinSignup, clickAct, valAct, waitAct]

theorem facebookSignup_all (g : List (String × String)) :
    (facebookSignup g).all (fun a => a.action ≠ "error") = true := by
  simp [facebookSignup, typeAct, clickAct, valAct, waitAct, selectAct]

theorem genericSignup_all (g : List (String × String)) :
    (genericSignup g).all (fun a => a.action ≠ "error") = true := by
  simp only [genericSignup]
  split <;> simp [typeAct, clickAct, valAct, waitAct]

theorem handleSearch_all (i il st : String) :
    (handleSearch i il st).all (fun a => a.action ≠ "error") = true := by
  simp only [handleSearch]
  split
  · split
    · simp [navAct, waitAct, searchAct, clickAct, valAct]
      intro x _ hx
      rcases hx with rfl | rfl <;> simp
    · simp [navAct, waitAct, searchAct]
  · simp [navAct, waitAct]

theorem handleLogin_contract (ur : Bool) (rs : RandSource) (site : String)
    (fields : Fields) :
    ∀ e ∈ handleLogin ur rs site fields, e.action = "error" →
      errContractOk e = true := by
  intro e he herr
  rw [handleLogin] at he
  dsimp only at he
  split at he
  · next hm =>
    simp only [List.mem_singleton] at he
    subst he
    simp only [errContractOk, loginErrAction, Bool.and_eq_true,
      decide_eq_true_eq, Bool.or_eq_true, Option.isSome_some]
    refine ⟨⟨?_, ?_⟩, ?_⟩
    · exact str_append_ne_empty _ _ (str_append_ne_empty _ _ (by decide))
    · simp [hm]
    · simp
  · exfalso
    rcases List.mem_append.mp he with h | h
    · rcases List.mem_append.mp h with h2 | h2
      · cases hcfg : siteCfg site <;>
        · rw [hcfg] at h2
          simp [navAct] at h2
          subst h2
          simp at herr
      · simp [waitAct] at h2
        subst h2
        simp at herr
    · split at h
      · exact all_ne_error_elim (twitterLogin_all _ _) h herr
      · split at h
        · exact all_ne_error_elim (facebookLogin_all _ _) h herr
        · split at h
          · exact all_ne_error_elim (linkedinLogin_all _ _) h herr
          · exact all_ne_error_elim (genericLogin_all _ _) h herr

theorem handleSignup_contract (ur : Bool) (rs : RandSource) (site : String)
    (fields : Fields) :
    ∀ e ∈ handleSignup ur rs site fields, e.action = "error" →
      errContractOk e = true := by
  intro e he herr
  rw [handleSignup] at he
  split at he
  · next hm =>
    simp only [List.mem_singleton] at he
    subst he
    simp only [errContractOk, signupErrAction, Bool.and_eq_true,
      decide_eq_true_eq, Bool.or_eq_true, Option.isSome_some]
    refine ⟨⟨?_, ?_⟩, ?_⟩
    · exact str_append_ne_empty _ _ (str_append_ne_empty _ _ (by decide))
    · simp [hm]
    · simp
  · exfalso
    rcases List.mem_append.mp he with h | h
    · rcases List.mem_append.mp h with h2 | h2
      · cases hcfg : siteCfg site <;>
        · rw [hcfg] at h2
          simp [navAct] at h2
          subst h2
          simp at herr
      · simp [waitAct] at h2
        subst h2
        simp at herr
    · split at h
      · exact all_ne_error_elim (twitterSignup_all _) h herr
      · split at h
        · exact all_ne_error_elim (facebookSignup_all _) h herr
        · split at h
          · exact all_ne_error_elim (linkedinSignup_all _) h herr
          · exact all_ne_error_elim (genericSignup_all _) h herr

theorem handleNavigation_contract (instruction site : String) :
    ∀ e ∈ handleNavigation instruction site, e.action = "error" →
      errContractOk e = true := by
  intro e he herr
  rw [handleNavigation] at he
  split at he
  · exfalso
    simp [navAct, waitAct] at he
    rcases he with rfl | rfl <;> simp at herr
  · split at he
    · exfalso
      simp [navAct, waitAct] at he
      rcases he with rfl | rfl <;> simp at herr
    · simp only [List.mem_singleton] at he
      subst he
      simp only [errContractOk, Bool.and_eq_true, decide_eq_true_eq]
      refine ⟨⟨?_, ?_⟩, ?_⟩
      · exact str_append_ne_empty _ _ (by decide)
      · simp
      · simp

/-- C8 (counterexample): the empty instruction compiles to a single error
carrying neither a `missing_fields` list nor a `suggestion`, and the
missing-credential login error of `"login to facebook"` (random data off)
carries `missing_fields` but no suggestion — against the claim that every
compile error carries both a missingFields list and a suggestion. -/
theorem c8_counterexample :
    parse false rsDemo "" =
      [{ action := "error", error := "Empty instruction" }] ∧
      ((parse false rsDemo "").all
        (fun e => e.missing_fields.isNone && e.suggestion.isNone)) = true ∧
      ((parse false rsDemo "login to facebook").any
        (fun e => decide (e.action = "error") &&
          e.missing_fields.isSome && e.suggestion.isNone)) = true := by
  refine ⟨by decide, by decide, by decide⟩

/-- C8 (amended): not every CompileError carries both a `missing_fields`
list and a `suggestion`: the empty-instruction error carries neither, the
could-not-understand and navigation errors carry only a suggestion, and
the login error carries `missing_fields` with a `details` string but no
suggestion.  What holds of every error `compile` returns is: its message
is nonempty, an attached `missing_fields` list is nonempty, and an
attached `missing_fields` list always comes with a suggestion (signup) or
a details string (login). -/
theorem c8_error_contract (ur : Bool) (rs : RandSource) (s : String)
    (e : ActionData) (he : e ∈ parse ur rs s) (herr : e.action = "error") :
    errContractOk e = true := by
  rw [parse] at he
  split at he
  · simp only [List.mem_singleton] at he
    subst he
    decide
  · rw [parseSimple] at he
    split at he
    · exact absurd herr (all_ne_error_elim (handleSearch_all _ _ _) he)
    · split at he
      · exact handleLogin_contract _ _ _ _ e he herr
      · split at he
        · exact handleSignup_contract _ _ _ _ e he herr
        · split at he
          · exact handleNavigation_contract _ _ e he herr
          · split at he
            · exfalso
              simp [navAct] at he
              subst he
              simp at herr
            · simp only [List.mem_singleton] at he
              subst he
              simp only [errContractOk, Bool.and_eq_true, decide_eq_true_eq]
              refine ⟨⟨?_, ?_⟩, ?_⟩
              · exact str_append_ne_empty _ _ (by decide)
              · simp
              · simp

/-- Witness for the error-contract theorem at the LinkedIn signup error of
the `"signup on linkedin"` instruction. -/
theorem c8_error_contract_witness :
    errContractOk
      { action := "error",
        error := "Signup failed: Missing required fields: first_name, last_name, email, password. Enable 'Use Random Data' to auto-fill missing fields.",
        missing_fields := some ["first_name", "last_name", "email", "password"],
        suggestion := some "For linkedin signup, you need: first_name, last_name, email, password" } = true :=
  c8_error_contract false rsDemo "signup on linkedin" _ (by decide) (by decide)

/-! ## Case of extracted values (C10)

The password/username/name extractors run over the lowercased
instruction, so every character of an extracted value is a character of
the lowercased instruction; lowercased characters are never uppercase. -/

/-- No ASCII uppercase letter occurs in the string. -/
def noUpperStr (v : String) : Bool :=
  v.data.all (fun c => !('A' ≤ c && c ≤ 'Z'))

def optNoUpper : Option String → Bool
  | none => true
  | some v => noUpperStr v

/-- The five fields matched against the lowercased instruction are free of
uppercase letters. -/
def fieldsNoUpper (f : Fields) : Bool :=
  optNoUpper f.password && optNoUpper f.username && optNoUpper f.name &&
    optNoUpper f.first_name && optNoUpper f.last_name

theorem toNat_add32 (c : Char) (h : c ≤ 'Z') :
    (c.val + 32).toNat = c.val.toNat + 32 := by
  have hz : c.val.toNat ≤ 90 := h
  rw [UInt32.toNat_add]
  have := UInt32.toNat_lt c.val
  simp [UInt32.size] at *
  omega

theorem lowerCh_no_upper (c : Char) :
    (!('A' ≤ lowerCh c && lowerCh c ≤ 'Z')) = true := by
  by_cases h : 'A' ≤ c ∧ c ≤ 'Z'
  · rw [lowerCh, dif_pos h]
    have h1 : ¬((⟨c.val + 32, lowerCh_valid c h⟩ : Char) ≤ 'Z') := by
      intro hle
      have h2 : (c.val + 32).toNat ≤ 90 := hle
      have h3 : (c.val + 32).toNat = c.val.toNat + 32 := toNat_add32 c h.2
      have h4 : 65 ≤ c.val.toNat := h.1
      omega
    simp [h1]
  · rw [lowerCh, dif_neg h]
    rw [show (decide ('A' ≤ c) && decide (c ≤ 'Z')) =
      decide ('A' ≤ c ∧ c ≤ 'Z') from (Bool.decide_and _ _).symm]
    simp [h]

theorem noUpper_of_mem_pyLower {l : List Char} {c : Char} (h : c ∈ pyLower l) :
    (!('A' ≤ c && c ≤ 'Z')) = true := by
  rcases List.mem_map.mp h with ⟨d, _, rfl⟩
  exact lowerCh_no_upper d

/-- Character provenance: every character of a captured group comes from
the matcher's input. -/
def SubPred (f : List Char → Option (List Char)) : Prop :=
  ∀ l v, f l = some v → ∀ c ∈ v, c ∈ l

theorem orElse_some_elim {f g : Option (List Char)} {v : List Char}
    (h : (f <|> g) = some v) : f = some v ∨ (f = none ∧ g = some v) := by
  cases hf : f with
  | some w =>
    rw [hf] at h
    simp only [Option.some_orElse] at h
    cases h
    exact Or.inl rfl
  | none =>
    rw [hf] at h
    simp only [Option.none_orElse] at h
    exact Or.inr ⟨rfl, h⟩

theorem subPred_orElse {f g : List Char → Option (List Char)}
    (hf : SubPred f) (hg : SubPred g) : SubPred (fun l => f l <|> g l) := by
  intro l v h c hc
  replace h : (f l <|> g l) = some v := h
  rcases orElse_some_elim h with h1 | ⟨_, h2⟩
  · exact hf l v h1 c hc
  · exact hg l v h2 c hc

theorem subPred_scanFor {att : List Char → Option (List Char)}
    (h : SubPred att) : SubPred (scanFor att) := by
  intro l
  induction l with
  | nil => intro v hv c hc; exact h [] v hv c hc
  | cons a rest ih =>
    intro v hv c hc
    rw [scanFor] at hv
    rcases orElse_some_elim hv with h1 | ⟨_, h2⟩
    · exact h _ _ h1 c hc
    · exact List.mem_cons_of_mem a (ih v h2 c hc)

theorem subPred_spacesPlus {cont : List Char → Option (List Char)}
    (h : SubPred cont) : SubPred (spacesPlus cont) := by
  intro l
  induction l with
  | nil => intro v hv c hc; rw [spacesPlus] at hv; cases hv
  | cons a rest ih =>
    intro v hv c hc
    rw [spacesPlus] at hv
    split at hv
    · rcases orElse_some_elim hv with h1 | ⟨_, h2⟩
      · exact List.mem_cons_of_mem a (ih v h1 c hc)
      · exact List.mem_cons_of_mem a (h rest v h2 c hc)
    · cases hv

theorem subPred_grabNonSpace : SubPred grabNonSpace := by
  intro l v h c hc
  cases l with
  | nil => cases h
  | cons a rest =>
    rw [grabNonSpace] at h
    split at h
    · cases h
    · cases h
      rcases List.mem_cons.mp hc with rfl | hc2
      · exact List.mem_cons_self _ _
      · exact List.mem_cons_of_mem a
          ((List.takeWhile_sublist _).subset hc2)

theorem subPred_grabAlphaWord : SubPred grabAlphaWord := by
  intro l v h c hc
  rw [grabAlphaWord] at h
  split at h
  · cases h
  · cases h
    exact (List.takeWhile_sublist _).subset hc

theorem subPred_grabNamePart : SubPred grabNamePart := by
  intro l v h c hc
  simp only [grabNamePart] at h
  split at h
  · cases h
  · split at h
    · cases h
      exact (List.takeWhile_sublist _).subset hc
    · split at h
      · cases h
        exact (List.takeWhile_sublist _).subset hc
      · cases h
        rcases List.mem_append.mp hc with h1 | h1
        · rcases List.mem_append.mp h1 with h2 | h2
          · exact (List.takeWhile_sublist _).subset h2
          · exact (List.drop_subset _ _)
              ((List.takeWhile_sublist _).subset h2)
        · exact (List.drop_subset _ _) ((List.drop_subset _ _)
            ((List.takeWhile_sublist _).subset h1))

theorem subPred_guardDrop {f : List Char → Option (List Char)}
    (hf : SubPred f) (P : List Char → Bool) (k : Nat) :
    SubPred (fun l => if P l then f (l.drop k) else none) := by
  intro l v h c hc
  dsimp only at h
  split at h
  · exact (List.drop_subset _ _) (hf _ _ h c hc)
  · cases h

theorem subPred_isasThen {grab : List Char → Option (List Char)}
    (hg : SubPred grab) : SubPred (isasThen grab) := by
  have h1 := subPred_guardDrop (subPred_spacesPlus hg)
    (fun l => ciPrefixOf ['i', 's'] l) 2
  have h2 := subPred_guardDrop (subPred_spacesPlus hg)
    (fun l => ciPrefixOf ['a', 's'] l) 2
  intro l v h c hc
  rw [isasThen] at h
  rcases orElse_some_elim h with ha | ⟨_, h⟩
  · exact h1 l v ha c hc
  · rcases orElse_some_elim h with hb | ⟨_, h⟩
    · exact h2 l v hb c hc
    · exact hg l v h c hc

theorem subPred_kwValueAt (kw : List Char) : SubPred (kwValueAt kw) :=
  fun l v h c hc =>
    subPred_guardDrop (subPred_spacesPlus (subPred_isasThen subPred_grabNonSpace))
      (fun l => ciPrefixOf kw l) kw.length l v h c hc

theorem subPred_withKwValueAt (kw : List Char) : SubPred (withKwValueAt kw) :=
  fun l v h c hc =>
    subPred_guardDrop
      (subPred_spacesPlus
        (subPred_guardDrop (subPred_spacesPlus subPred_grabNonSpace)
          (fun r => ciPrefixOf kw r) kw.length))
      (fun l => ciPrefixOf "with".data l) 4 l v h c hc

theorem rstrip_subset (cs : List Char) (v : List Char) :
    ∀ c ∈ rstripIn cs v, c ∈ v := by
  intro c hc
  rw [rstripIn] at hc
  rw [List.mem_reverse] at hc
  have := (List.dropWhile_sublist _).subset hc
  rwa [List.mem_reverse] at this

theorem extractPassword_sub (il : List Char) (v : List Char)
    (h : extractPassword il = some v) : ∀ c ∈ v, c ∈ il := by
  intro c hc
  rw [extractPassword] at h
  cases hw : (scanFor (kwValueAt "password".data) il
      <|> scanFor (kwValueAt "pass".data) il
      <|> scanFor (withKwValueAt "password".data) il) with
  | none => rw [hw] at h; cases h
  | some w =>
    rw [hw] at h
    simp only [Option.map_some'] at h
    cases h
    have hcw : c ∈ w := rstrip_subset _ _ c hc
    exact subPred_orElse (subPred_scanFor (subPred_kwValueAt _))
      (subPred_orElse (subPred_scanFor (subPred_kwValueAt _))
        (subPred_scanFor (subPred_withKwValueAt _))) il w hw c hcw

theorem extractUsername_sub (il : List Char) (v : List Char)
    (h : extractUsername il = some v) : ∀ c ∈ v, c ∈ il := by
  intro c hc
  rw [extractUsername] at h
  cases hw : (scanFor (kwValueAt "username".data) il
      <|> scanFor (kwValueAt "user".data) il
      <|> scanFor (withKwValueAt "username".data) il) with
  | none => rw [hw] at h; cases h
  | some w =>
    rw [hw] at h
    simp only [Option.map_some'] at h
    cases h
    have hcw : c ∈ w := rstrip_subset _ _ c hc
    exact subPred_orElse (subPred_scanFor (subPred_kwValueAt _))
      (subPred_orElse (subPred_scanFor (subPred_kwValueAt _))
        (subPred_scanFor (subPred_withKwValueAt _))) il w hw c hcw

theorem subPred_nameAt : SubPred nameAt :=
  fun l v h c hc =>
    subPred_guardDrop (subPred_spacesPlus (subPred_isasThen subPred_grabNamePart))
      (fun l => ciPrefixOf "name".data l) 4 l v h c hc

theorem subPred_withNameAt : SubPred withNameAt :=
  fun l v h c hc =>
    subPred_guardDrop
      (subPred_spacesPlus
        (subPred_guardDrop (subPred_spacesPlus subPred_grabNamePart)
          (fun r => ciPrefixOf "name".data r) 4))
      (fun l => ciPrefixOf "with".data l) 4 l v h c hc

theorem extractName_sub (il : List Char) (v : List Char)
    (h : extractName il = some v) : ∀ c ∈ v, c ∈ il :=
  subPred_orElse (subPred_scanFor subPred_nameAt)
    (subPred_scanFor subPred_withNameAt) il v h

theorem subPred_flNameCont : SubPred flNameCont :=
  fun l v h c hc =>
    subPred_guardDrop (subPred_spacesPlus (subPred_isasThen subPred_grabAlphaWord))
      (fun r2 => ciPrefixOf "name".data r2) 4 l v h c hc

theorem subPred_flNameP1At (kw : List Char) : SubPred (flNameP1At kw) := by
  intro l v h c hc
  rw [flNameP1At] at h
  split at h
  · rcases hr : l.drop kw.length with _ | ⟨a, rest⟩ <;> rw [hr] at h
    · have := subPred_flNameCont [] v h c hc
      cases this
    · dsimp only at h
      split at h
      · rcases orElse_some_elim h with h1 | ⟨_, h2⟩
        · have h3 : c ∈ rest := subPred_flNameCont rest v h1 c hc
          have h4 : c ∈ l.drop kw.length := by
            rw [hr]; exact List.mem_cons_of_mem a h3
          exact (List.drop_subset _ _) h4
        · have h3 : c ∈ a :: rest := subPred_flNameCont (a :: rest) v h2 c hc
          have h4 : c ∈ l.drop kw.length := by rw [hr]; exact h3
          exact (List.drop_subset _ _) h4
      · have h3 : c ∈ a :: rest := subPred_flNameCont (a :: rest) v h c hc
        have h4 : c ∈ l.drop kw.length := by rw [hr]; exact h3
        exact (List.drop_subset _ _) h4
  · cases h

theorem subPred_flNameP2At (kw : List Char) : SubPred (flNameP2At kw) :=
  fun l v h c hc =>
    subPred_guardDrop
      (subPred_spacesPlus
        (subPred_guardDrop (subPred_spacesPlus subPred_grabAlphaWord)
          (fun r => ciPrefixOf "name".data r) 4))
      (fun l => ciPrefixOf kw l) kw.length l v h c hc

theorem extractFirstName_sub (il : List Char) (v : List Char)
    (h : extractFirstName il = some v) : ∀ c ∈ v, c ∈ il :=
  subPred_orElse (subPred_scanFor (subPred_flNameP1At _))
    (subPred_scanFor (subPred_flNameP2At _)) il v h

theorem extractLastName_sub (il : List Char) (v : List Char)
    (h : extractLastName il = some v) : ∀ c ∈ v, c ∈ il :=
  subPred_orElse (subPred_scanFor (subPred_flNameP1At _))
    (subPred_scanFor (subPred_flNameP2At _)) il v h

theorem optNoUpper_of_sub {r : Option (List Char)} {il : List Char}
    (hsub : ∀ v, r = some v → ∀ c ∈ v, c ∈ pyLower il) :
    optNoUpper (r.map mkStr) = true := by
  cases hr : r with
  | none => rfl
  | some w =>
    simp only [Option.map_some', optNoUpper, noUpperStr]
    rw [List.all_eq_true]
    intro c hc
    exact noUpper_of_mem_pyLower (hsub w hr c hc)

/-- C10: the password, username, name, first_name and last_name values the
compiler extracts are matched against the lowercased instruction, so an
extracted value never contains an ASCII uppercase letter, whatever case
the user wrote it in; the email field alone is matched against the
original instruction and keeps its case, and the lowercased values are
what the emitted Type actions carry (here: `MyUser`/`MySecret` typed as
`myuser`/`mysecret`, while the email survives as written). -/
theorem c10_lowercased_extraction :
    (∀ s : String, fieldsNoUpper (extractAll s) = true) ∧
      (extractAll "email MyName@Mail.com password SECRET99!").email =
        some "MyName@Mail.com" ∧
      (extractAll "email MyName@Mail.com password SECRET99!").password =
        some "secret99" ∧
      (parse false rsDemo
          "login to github with username MyUser password MySecret").get? 2 =
        some (typeAct "input[name='username'], input[placeholder*='username']"
          "myuser" "username" "Enter username: myuser") := by
  refine ⟨?_, by decide, by decide, by decide⟩
  intro s
  rw [extractAll, fieldsNoUpper]
  dsimp only
  rw [optNoUpper_of_sub (fun v hv => extractPassword_sub _ v hv),
    optNoUpper_of_sub (fun v hv => extractUsername_sub _ v hv),
    optNoUpper_of_sub (fun v hv => extractName_sub _ v hv),
    optNoUpper_of_sub (fun v hv => extractFirstName_sub _ v hv),
    optNoUpper_of_sub (fun v hv => extractLastName_sub _ v hv)]
  rfl

end WebTester
